import Mathlib

/-!
# ZED body-tracking adapter

A shallow embedding of `zed_device/cpp/zed_interface.cpp` (with the data
declarations of `zed_interface.h`) and the properties its specification
states about it.

* The vendor camera `sl::Camera zed` is a collaborator whose replies are
  inputs: a `Camera` gives, for every history of device calls, the reply to
  the next call.  Every device call is logged, with its reply, in
  `State.calls`.
* The C++ free store is an explicit `Heap`: a list of live blocks, newest
  first.  `new T[n]` takes its address and the indeterminate initial content
  of the cells from a `Runtime`; the only thing assumed about a runtime is
  `Fresh`: the address is not null and not live.  Allocation never fails.
* A dereference of a dangling or null pointer, or an index out of range, is
  `none`.
* `float` values are only ever copied, so they are kept as bit patterns.
-/

namespace Zed

/-! ## Vendor types (`sl/Camera.hpp`) -/

/-- Modelled from the spec: `sl::ERROR_CODE` belongs to the vendor SDK; the spec
only says that every device call reports a distinguishable success or failure. -/
inductive ERROR_CODE
  | SUCCESS
  | FAILURE (code : Nat)
  deriving DecidableEq

/-- A C `float`, kept as its bit pattern: the adapter copies, never computes. -/
abbrev float := Nat

/-- Modelled from the spec: `sl::float3`, one keypoint as the device delivers it. -/
structure float3 where
  x : float
  y : float
  z : float
  deriving DecidableEq

/-- Modelled from the spec: `sl::BodyData`, of which the adapter reads `keypoint` only. -/
structure BodyData where
  keypoint : List float3
  deriving DecidableEq

/-- Modelled from the spec: `sl::Bodies`, of which the adapter reads `is_new` and
`body_list` only. -/
structure Bodies where
  is_new : Bool
  body_list : List BodyData
  deriving DecidableEq

/-- Modelled from the spec: `sl::RESOLUTION`; only the value the source names is
told apart. -/
inductive RESOLUTION
  | HD720
  | other (tag : Nat)
  deriving DecidableEq

/-- Modelled from the spec: `sl::DEPTH_MODE`. -/
inductive DEPTH_MODE
  | PERFORMANCE
  | other (tag : Nat)
  deriving DecidableEq

/-- Modelled from the spec: `sl::UNIT`. -/
inductive UNIT
  | METER
  | other (tag : Nat)
  deriving DecidableEq

/-- Modelled from the spec: `sl::BODY_TRACKING_MODEL`. -/
inductive BODY_TRACKING_MODEL
  | HUMAN_BODY_MEDIUM
  | other (tag : Nat)
  deriving DecidableEq

/-- Modelled from the spec: `sl::BODY_FORMAT`; `BODY_38` is the fixed 38-point
layout. -/
inductive BODY_FORMAT
  | BODY_38
  | other (tag : Nat)
  deriving DecidableEq

/-- The fields of `sl::InitParameters` that `init_zed` sets. -/
structure InitParameters where
  camera_resolution : RESOLUTION
  depth_mode : DEPTH_MODE
  coordinate_units : UNIT
  sdk_verbose : Bool
  deriving DecidableEq

/-- The fields of `sl::BodyTrackingParameters` that `init_zed` sets. -/
structure BodyTrackingParameters where
  detection_model : BODY_TRACKING_MODEL
  body_format : BODY_FORMAT
  image_sync : Bool
  enable_tracking : Bool
  enable_body_fitting : Bool
  deriving DecidableEq

/-- The field of `sl::BodyTrackingRuntimeParameters` that `init_zed` sets. -/
structure BodyTrackingRuntimeParameters where
  detection_confidence_threshold : Nat
  deriving DecidableEq

/-- One call made on the camera, with the arguments passed and the reply
received. -/
inductive DeviceEvent
  | open_ (p : InitParameters) (r : ERROR_CODE)
  | enablePositionalTracking
  | enableBodyTracking (p : BodyTrackingParameters) (r : ERROR_CODE)
  | grab (r : ERROR_CODE)
  | retrieveBodies (p : BodyTrackingRuntimeParameters) (b : Bodies)
  | close
  deriving DecidableEq

/-- The camera as a collaborator: its reply to a call, given the calls made
before it and the arguments. -/
structure Camera where
  open_ : List DeviceEvent → InitParameters → ERROR_CODE
  enableBodyTracking : List DeviceEvent → BodyTrackingParameters → ERROR_CODE
  grab : List DeviceEvent → ERROR_CODE
  retrieveBodies : List DeviceEvent → BodyTrackingRuntimeParameters → Bodies

/-! ## The adapter's data (`zed_interface.h`) -/

/-- A pointer; `0` is the null pointer. -/
abbrev Addr := Nat

/-- The null pointer. -/
def nullptr : Addr := 0

/-- `Point3D` of `zed_interface.h`. -/
structure Point3D where
  x : float
  y : float
  z : float
  deriving DecidableEq

/-- `Body` of `zed_interface.h`. -/
structure Body where
  num_points : Nat
  points : Addr
  deriving DecidableEq

/-- `BodyList` of `zed_interface.h`. -/
structure BodyList where
  num_bodies : Nat
  bodies : Addr
  deriving DecidableEq

/-! ## The free store -/

/-- An array made by `new Body[n]` or by `new Point3D[n]`. -/
inductive Block
  | bodies (cells : List Body)
  | points (cells : List Point3D)
  deriving DecidableEq

/-- The free store: the live blocks, newest first, and the number of
allocations made so far. -/
structure Heap where
  blocks : List (Addr × Block)
  allocs : Nat
  deriving DecidableEq

/-- What `operator new[]` decides: the address of the block (from the number
of earlier allocations and the live addresses) and the indeterminate content
of its default-initialised cells. -/
structure Runtime where
  pick : Nat → List Addr → Addr
  junkBody : Nat → Nat → Body
  junkPoint : Nat → Nat → Point3D

/-- First block stored at address `a`. -/
def findBlock (a : Addr) : List (Addr × Block) → Option Block
  | [] => none
  | (b, blk) :: rest => if b = a then some blk else findBlock a rest

/-- Replace the content of the first block stored at address `a`. -/
def storeBlock (a : Addr) (blk : Block) : List (Addr × Block) → List (Addr × Block)
  | [] => []
  | (b, old) :: rest =>
    if b = a then (b, blk) :: rest else (b, old) :: storeBlock a blk rest

/-- Addresses of the live blocks. -/
def Heap.live (h : Heap) : List Addr := h.blocks.map Prod.fst

/-- The block a pointer refers to; none for a null or dangling pointer. -/
def Heap.find (h : Heap) (p : Addr) : Option Block :=
  if p = nullptr then none else findBlock p h.blocks

/-- `new Body[n]`. -/
def Heap.new_Body (rt : Runtime) (h : Heap) (n : Nat) : Addr × Heap :=
  let p := rt.pick h.allocs h.live
  (p, ⟨(p, .bodies ((List.range n).map (rt.junkBody h.allocs))) :: h.blocks, h.allocs + 1⟩)

/-- `new Point3D[n]`. -/
def Heap.new_Point3D (rt : Runtime) (h : Heap) (n : Nat) : Addr × Heap :=
  let p := rt.pick h.allocs h.live
  (p, ⟨(p, .points ((List.range n).map (rt.junkPoint h.allocs))) :: h.blocks, h.allocs + 1⟩)

/-- `delete[] p`: nothing for the null pointer, undefined for a pointer that is
not live. -/
def Heap.delete (h : Heap) (p : Addr) : Option Heap :=
  if p = nullptr then some h
  else if p ∈ h.live then some ⟨h.blocks.filter (fun e => e.1 != p), h.allocs⟩
  else none

/-- Load `p[i]` where `p` is a `Body*`. -/
def Heap.readBody (h : Heap) (p : Addr) (i : Nat) : Option Body :=
  match h.find p with
  | some (.bodies cells) => cells[i]?
  | _ => none

/-- Load `p[j]` where `p` is a `Point3D*`. -/
def Heap.readPoint (h : Heap) (p : Addr) (j : Nat) : Option Point3D :=
  match h.find p with
  | some (.points cells) => cells[j]?
  | _ => none

/-- Store into a member of `p[i]` where `p` is a `Body*`. -/
def Heap.modifyBody (h : Heap) (p : Addr) (i : Nat) (f : Body → Body) : Option Heap :=
  match h.find p with
  | some (.bodies cells) =>
    match cells[i]? with
    | some b => some ⟨storeBlock p (.bodies (cells.set i (f b))) h.blocks, h.allocs⟩
    | none => none
  | _ => none

/-- Store into a member of `p[j]` where `p` is a `Point3D*`. -/
def Heap.modifyPoint (h : Heap) (p : Addr) (j : Nat) (f : Point3D → Point3D) : Option Heap :=
  match h.find p with
  | some (.points cells) =>
    match cells[j]? with
    | some c => some ⟨storeBlock p (.points (cells.set j (f c))) h.blocks, h.allocs⟩
    | none => none
  | _ => none

/-- The one assumption on `operator new[]`: the address it returns is not null
and not the address of a live block. -/
def Fresh (rt : Runtime) : Prop :=
  ∀ (n : Nat) (live : List Addr), rt.pick n live ≠ nullptr ∧ rt.pick n live ∉ live

/-! ## Program state -/

/-- Something written to `cout`. -/
inductive OutItem
  | text (s : String)
  | code (e : ERROR_CODE)
  deriving DecidableEq

/-- The process state: the log of device calls (oldest first), what was
printed, the free store and the two global parameter sets. -/
structure State where
  calls : List DeviceEvent
  out : List OutItem
  heap : Heap
  detection_parameters : BodyTrackingParameters
  detection_parameters_rt : BodyTrackingRuntimeParameters
  deriving DecidableEq

/-- How a function that may call `exit` ends. -/
inductive Outcome
  | returned (s : State)
  | exited (status : Nat) (s : State)
  deriving DecidableEq

/-- Modelled from the spec: `EXIT_FAILURE` of `<cstdlib>` is not under src; the
spec calls it the non-zero status, and `1` is its value on the platforms of the
SDK. -/
def EXIT_FAILURE : Nat := 1

/-! ## `zed_interface.cpp` -/

/-- `init_zed` (lines 12-46). -/
def init_zed (zed : Camera) (s : State) : Outcome :=
  let init_parameters : InitParameters :=
    ⟨RESOLUTION.HD720, DEPTH_MODE.PERFORMANCE, UNIT.METER, true⟩
  let returned_state := zed.open_ s.calls init_parameters
  let s := { s with calls := s.calls ++ [DeviceEvent.open_ init_parameters returned_state] }
  if returned_state ≠ ERROR_CODE.SUCCESS then
    let s := { s with out := s.out ++ [OutItem.text "Error ", OutItem.code returned_state,
      OutItem.text ", ZED Camera Initialization Failed.\n"] }
    Outcome.exited EXIT_FAILURE s
  else
    let s := { s with detection_parameters :=
      ⟨BODY_TRACKING_MODEL.HUMAN_BODY_MEDIUM, BODY_FORMAT.BODY_38, true, true, true⟩ }
    let s := if s.detection_parameters.enable_tracking then
        { s with calls := s.calls ++ [DeviceEvent.enablePositionalTracking] }
      else s
    let returned_state := zed.enableBodyTracking s.calls s.detection_parameters
    let s := { s with calls := s.calls ++
      [DeviceEvent.enableBodyTracking s.detection_parameters returned_state] }
    if returned_state ≠ ERROR_CODE.SUCCESS then
      let s := { s with out := s.out ++ [OutItem.text "Error ", OutItem.code returned_state,
        OutItem.text ", Body Tracking Initialization Failed.\n"] }
      let s := { s with calls := s.calls ++ [DeviceEvent.close] }
      Outcome.exited EXIT_FAILURE s
    else
      Outcome.returned { s with detection_parameters_rt := ⟨40⟩ }

/-- The three assignments of lines 69-71, each through `body_list.bodies[i].points`. -/
def copyKeypoint (body_list : BodyList) (i j : Nat) (k : float3) (h : Heap) : Option Heap := do
  let b ← h.readBody body_list.bodies i
  let h ← h.modifyPoint b.points j (fun c => { c with x := k.x })
  let b ← h.readBody body_list.bodies i
  let h ← h.modifyPoint b.points j (fun c => { c with y := k.y })
  let b ← h.readBody body_list.bodies i
  h.modifyPoint b.points j (fun c => { c with z := k.z })

/-- The loop of lines 68-72, from index `j`; `fuel` bounds the iterations. -/
def pointLoop (current_body : BodyData) (body_list : BodyList) (i num_keypoints : Nat) :
    Nat → Nat → Heap → Option Heap
  | 0, j, h => if j < num_keypoints then none else some h
  | fuel + 1, j, h =>
    if j < num_keypoints then
      match current_body.keypoint[j]? with
      | none => none
      | some k =>
        match copyKeypoint body_list i j k h with
        | none => none
        | some h => pointLoop current_body body_list i num_keypoints fuel (j + 1) h
    else some h

/-- The body of the loop of lines 62-73 for index `i`. -/
def copyBody (rt : Runtime) (current_body : BodyData) (body_list : BodyList) (i : Nat)
    (h : Heap) : Option Heap :=
  let num_keypoints := current_body.keypoint.length
  match h.modifyBody body_list.bodies i (fun b => { b with num_points := num_keypoints }) with
  | none => none
  | some h =>
    let (p, h) := h.new_Point3D rt num_keypoints
    match h.modifyBody body_list.bodies i (fun b => { b with points := p }) with
    | none => none
    | some h => pointLoop current_body body_list i num_keypoints num_keypoints 0 h

/-- The loop of lines 62-73, from index `i`; `fuel` bounds the iterations. -/
def bodyLoop (rt : Runtime) (bodies : Bodies) (body_list : BodyList) (num_bodies : Nat) :
    Nat → Nat → Heap → Option Heap
  | 0, i, h => if i < num_bodies then none else some h
  | fuel + 1, i, h =>
    if i < num_bodies then
      match bodies.body_list[i]? with
      | none => none
      | some current_body =>
        match copyBody rt current_body body_list i h with
        | none => none
        | some h => bodyLoop rt bodies body_list num_bodies fuel (i + 1) h
    else some h

/-- `poll_body_keypoints` (lines 48-78). -/
def poll_body_keypoints (rt : Runtime) (zed : Camera) (s : State) : Option (BodyList × State) :=
  let body_list : BodyList := ⟨0, nullptr⟩
  let grabbed := zed.grab s.calls
  let s := { s with calls := s.calls ++ [DeviceEvent.grab grabbed] }
  if grabbed = ERROR_CODE.SUCCESS then
    let bodies := zed.retrieveBodies s.calls s.detection_parameters_rt
    let s := { s with calls := s.calls ++
      [DeviceEvent.retrieveBodies s.detection_parameters_rt bodies] }
    if bodies.is_new then
      let num_bodies := bodies.body_list.length
      let body_list := { body_list with num_bodies := num_bodies }
      let (p, h) := s.heap.new_Body rt num_bodies
      let body_list := { body_list with bodies := p }
      match bodyLoop rt bodies body_list num_bodies num_bodies 0 h with
      | none => none
      | some h => some (body_list, { s with heap := h })
    else some (body_list, s)
  else some (body_list, s)

/-- `close_zed` (lines 80-82). -/
def close_zed (s : State) : State :=
  { s with calls := s.calls ++ [DeviceEvent.close] }

/-- The loop of lines 85-87, from index `i`; `fuel` bounds the iterations. -/
def freeLoop (body_list : BodyList) : Nat → Nat → Heap → Option Heap
  | 0, i, h => if i < body_list.num_bodies then none else some h
  | fuel + 1, i, h =>
    if i < body_list.num_bodies then
      match h.readBody body_list.bodies i with
      | none => none
      | some b =>
        match h.delete b.points with
        | none => none
        | some h => freeLoop body_list fuel (i + 1) h
    else some h

/-- `free_body_list` (lines 84-89). -/
def free_body_list (body_list : BodyList) (s : State) : Option State :=
  match freeLoop body_list body_list.num_bodies 0 s.heap with
  | none => none
  | some h =>
    match h.delete body_list.bodies with
    | none => none
    | some h => some { s with heap := h }

/-! ## Proof-side descriptions of what a poll builds -/

/-- The `Point3D` that lines 69-71 write for a keypoint. -/
def toPoint (k : float3) : Point3D := ⟨k.x, k.y, k.z⟩

/-- Addresses of a list of blocks. -/
def keys (l : List (Addr × Block)) : List Addr := l.map Prod.fst

/-- The keypoint arrays a poll leaves for the bodies `bs`, newest first, when
allocation number `n` starts from the live addresses `live`. -/
def ptBlocks (rt : Runtime) : List Addr → Nat → List BodyData → List (Addr × Block)
  | _, _, [] => []
  | live, n, cb :: rest =>
    ptBlocks rt (rt.pick n live :: live) (n + 1) rest ++
      [(rt.pick n live, Block.points (cb.keypoint.map toPoint))]

/-- The cells of the `Body` array a poll leaves for the bodies `bs`. -/
def newCells (rt : Runtime) : List Addr → Nat → List BodyData → List Body
  | _, _, [] => []
  | live, n, cb :: rest =>
    ⟨cb.keypoint.length, rt.pick n live⟩ :: newCells rt (rt.pick n live :: live) (n + 1) rest

/-- What `BodyList.view` shows of a snapshot that holds the bodies `data`. -/
def viewOf (data : List BodyData) : List (Option (Nat × List (Option Point3D))) :=
  data.map fun cb => some (cb.keypoint.length, cb.keypoint.map fun k => some (toPoint k))

/-- The blocks `news` are what a poll allocated, on top of the blocks `old`, for
the snapshot `bl` of the bodies `data`: nothing for the null snapshot, else the
keypoint arrays and the `Body` array. -/
def Snap (rt : Runtime) (bl : BodyList) (news old : List (Addr × Block))
    (data : List BodyData) : Prop :=
  (bl = ⟨0, nullptr⟩ ∧ news = [] ∧ data = []) ∨
  (∃ n, bl.bodies ≠ nullptr ∧ bl.bodies ∉ keys old ∧ bl.num_bodies = data.length ∧
    news = ptBlocks rt (bl.bodies :: keys old) n data ++
      [(bl.bodies, Block.bodies (newCells rt (bl.bodies :: keys old) n data))])

/-! ## Observing a snapshot -/

/-- Everything a caller can read from a snapshot: for each index below
`num_bodies` the `num_points` of that body and, for each index below it, the
point; a read through a null or dangling pointer shows as `none`. -/
def BodyList.view (bl : BodyList) (h : Heap) : List (Option (Nat × List (Option Point3D))) :=
  (List.range bl.num_bodies).map fun i =>
    (h.readBody bl.bodies i).map fun b =>
      (b.num_points, (List.range b.num_points).map (h.readPoint b.points))

/-- The arrays of a snapshot: its `bodies` pointer and the `points` pointer of
each of its bodies, the null pointer left out. -/
def BodyList.arrays (bl : BodyList) (h : Heap) : List Addr :=
  (bl.bodies :: (List.range bl.num_bodies).filterMap
    (fun i => (h.readBody bl.bodies i).map Body.points)).filter (fun p => p != nullptr)

/-! ## The session state machine of the specification -/

/-- Modelled from the spec: the session states of section 4.1; the adapter keeps
no such state. -/
inductive Session
  | Uninitialized
  | Opened
  | TrackingEnabled
  | Closed
  deriving DecidableEq

/-- Modelled from the spec: `Uninitialized → Opened → TrackingEnabled → Closed`,
driven by the device calls that succeed; nothing leads back from `Closed`. -/
def Session.next : Session → DeviceEvent → Session
  | Session.Uninitialized, DeviceEvent.open_ _ ERROR_CODE.SUCCESS => Session.Opened
  | Session.Opened, DeviceEvent.enableBodyTracking _ ERROR_CODE.SUCCESS => Session.TrackingEnabled
  | Session.Opened, DeviceEvent.close => Session.Closed
  | Session.TrackingEnabled, DeviceEvent.close => Session.Closed
  | σ, _ => σ

/-- The session state after a log of device calls. -/
def sessionAfter (calls : List DeviceEvent) : Session :=
  calls.foldl Session.next Session.Uninitialized

/-- Whether an event is a grab or a retrieval. -/
def DeviceEvent.isRetrieval : DeviceEvent → Bool
  | DeviceEvent.grab _ => true
  | DeviceEvent.retrieveBodies _ _ => true
  | _ => false

/-- Whether every grab and retrieval of a log is made in `TrackingEnabled`,
when the log starts in session state `σ`. -/
def retrievalsPermitted : Session → List DeviceEvent → Bool
  | _, [] => true
  | σ, e :: rest =>
    (!e.isRetrieval || decide (σ = Session.TrackingEnabled)) &&
      retrievalsPermitted (σ.next e) rest

/-- The entry points a caller can invoke on the session. -/
inductive ApiCall
  | init_zed
  | poll_body_keypoints
  | close_zed
  deriving DecidableEq

/-- A caller making the given calls in order, dropping every snapshot; the
process ends where `init_zed` exits. -/
def runApi (rt : Runtime) (zed : Camera) : List ApiCall → State → State
  | [], s => s
  | ApiCall.init_zed :: rest, s =>
    match init_zed zed s with
    | Outcome.returned s1 => runApi rt zed rest s1
    | Outcome.exited _ s1 => s1
  | ApiCall.poll_body_keypoints :: rest, s =>
    match poll_body_keypoints rt zed s with
    | some (_, s1) => runApi rt zed rest s1
    | none => s
  | ApiCall.close_zed :: rest, s => runApi rt zed rest (close_zed s)

/-- Polls, then nothing or one `close_zed`. -/
def pollsThenClose : List ApiCall → Bool
  | [] => true
  | [ApiCall.close_zed] => true
  | ApiCall.poll_body_keypoints :: rest => pollsThenClose rest
  | _ => false

/-- The call order section 4.1 asks of the caller: `init_zed` once, first; then
polls; `close_zed`, if at all, last. -/
def followsProtocol : List ApiCall → Bool
  | ApiCall.init_zed :: rest => pollsThenClose rest
  | _ => false

/-- The body format the device is configured with after one more call: a
successful `enableBodyTracking` sets it, `close` drops it. -/
def formatAfter : Option BODY_FORMAT → DeviceEvent → Option BODY_FORMAT
  | _, DeviceEvent.enableBodyTracking p ERROR_CODE.SUCCESS => some p.body_format
  | _, DeviceEvent.close => none
  | fmt, _ => fmt

/-- The body format the device is configured with after a log of device calls. -/
def configuredFormat (calls : List DeviceEvent) : Option BODY_FORMAT :=
  calls.foldl formatAfter none

/-- Modelled from the spec: the device's side of "the number of keypoints per
body equals the configured tracking model's fixed output size": while the device
is configured with `BODY_38`, every body it delivers has 38 keypoints. The
device is vendor code that is not under src. -/
def HonoursFormat (zed : Camera) : Prop :=
  ∀ (calls : List DeviceEvent) (p : BodyTrackingRuntimeParameters),
    configuredFormat calls = some BODY_FORMAT.BODY_38 →
    ∀ cb ∈ (zed.retrieveBodies calls p).body_list, cb.keypoint.length = 38

/-- The `init_parameters` that `init_zed` passes to `open` (lines 14-18). -/
def openParameters : InitParameters :=
  ⟨RESOLUTION.HD720, DEPTH_MODE.PERFORMANCE, UNIT.METER, true⟩

/-- The `detection_parameters` that `init_zed` passes to `enableBodyTracking`
(lines 27-31). -/
def trackingParameters : BodyTrackingParameters :=
  ⟨BODY_TRACKING_MODEL.HUMAN_BODY_MEDIUM, BODY_FORMAT.BODY_38, true, true, true⟩

/-! ## A concrete runtime and cameras, for evaluation -/

/-- A runtime that hands out one more than the largest live address. -/
def bumpRuntime : Runtime where
  pick := fun _ live => live.foldr max 0 + 1
  junkBody := fun n i => ⟨n + i + 7, n + 3⟩
  junkPoint := fun n i => ⟨n, i, 99⟩

/-- An empty process state. -/
def emptyState : State where
  calls := []
  out := []
  heap := ⟨[], 0⟩
  detection_parameters := ⟨BODY_TRACKING_MODEL.other 0, BODY_FORMAT.other 0, false, false, false⟩
  detection_parameters_rt := ⟨0⟩

/-- A camera that opens, enables tracking, grabs, and always delivers `b`. -/
def steadyCamera (b : Bodies) : Camera where
  open_ := fun _ _ => ERROR_CODE.SUCCESS
  enableBodyTracking := fun _ _ => ERROR_CODE.SUCCESS
  grab := fun _ => ERROR_CODE.SUCCESS
  retrieveBodies := fun _ _ => b

/-- A camera that follows the session state machine: a call succeeds only in
the state that permits it; a retrieval delivers `b`. -/
def strictCamera (b : Bodies) : Camera where
  open_ := fun calls _ =>
    if sessionAfter calls = Session.Uninitialized then ERROR_CODE.SUCCESS else ERROR_CODE.FAILURE 2
  enableBodyTracking := fun calls _ =>
    if sessionAfter calls = Session.Opened then ERROR_CODE.SUCCESS else ERROR_CODE.FAILURE 3
  grab := fun calls =>
    if sessionAfter calls = Session.TrackingEnabled then ERROR_CODE.SUCCESS
    else ERROR_CODE.FAILURE 4
  retrieveBodies := fun _ _ => b

/-- A camera on which every call fails. -/
def deadCamera : Camera where
  open_ := fun _ _ => ERROR_CODE.FAILURE 1
  enableBodyTracking := fun _ _ => ERROR_CODE.FAILURE 1
  grab := fun _ => ERROR_CODE.FAILURE 1
  retrieveBodies := fun _ _ => ⟨false, []⟩

/-- A camera that opens but cannot enable body tracking. -/
def noTrackingCamera : Camera where
  open_ := fun _ _ => ERROR_CODE.SUCCESS
  enableBodyTracking := fun _ _ => ERROR_CODE.FAILURE 5
  grab := fun _ => ERROR_CODE.SUCCESS
  retrieveBodies := fun _ _ => ⟨false, []⟩

/-- Two bodies, of two and of one keypoint. -/
def twoBodies : Bodies :=
  ⟨true, [⟨[⟨1, 2, 3⟩, ⟨4, 5, 6⟩]⟩, ⟨[⟨7, 8, 9⟩]⟩]⟩

/-- A buffer that holds a body but is not marked new. -/
def staleBodies : Bodies :=
  ⟨false, [⟨[⟨1, 2, 3⟩]⟩]⟩

/-- A new result that tracks nobody. -/
def nobody : Bodies :=
  ⟨true, []⟩

/-- The empty process state after a returning `init_zed`. -/
def readyState : State where
  calls := [DeviceEvent.open_ openParameters ERROR_CODE.SUCCESS,
    DeviceEvent.enablePositionalTracking,
    DeviceEvent.enableBodyTracking trackingParameters ERROR_CODE.SUCCESS]
  out := []
  heap := ⟨[], 0⟩
  detection_parameters := trackingParameters
  detection_parameters_rt := ⟨40⟩

/-- One body in the 38-point layout. -/
def fullBody : Bodies :=
  ⟨true, [⟨(List.range 38).map fun k => ⟨k, k + 1, k + 2⟩⟩]⟩

/-! ## The free store: basic facts -/

theorem keys_append (l₁ l₂ : List (Addr × Block)) : keys (l₁ ++ l₂) = keys l₁ ++ keys l₂ := by
  simp [keys]

theorem keys_cons (a : Addr) (b : Block) (l : List (Addr × Block)) :
    keys ((a, b) :: l) = a :: keys l := rfl

theorem findBlock_append_of_not_mem {a : Addr} {front : List (Addr × Block)}
    (h : a ∉ keys front) (back : List (Addr × Block)) :
    findBlock a (front ++ back) = findBlock a back := by
  induction front with
  | nil => rfl
  | cons e front ih =>
    obtain ⟨b, blk⟩ := e
    simp only [keys, List.map_cons, List.mem_cons, not_or] at h
    have hne : ¬ b = a := fun hb => h.1 hb.symm
    simp only [List.cons_append, findBlock, hne, if_false]
    exact ih h.2

theorem findBlock_cons_self (a : Addr) (blk : Block) (rest : List (Addr × Block)) :
    findBlock a ((a, blk) :: rest) = some blk := by
  simp [findBlock]

theorem findBlock_cons_ne {a b : Addr} (h : b ≠ a) (blk : Block) (rest : List (Addr × Block)) :
    findBlock a ((b, blk) :: rest) = findBlock a rest := by
  simp [findBlock, h]

theorem storeBlock_append_of_not_mem {a : Addr} {front : List (Addr × Block)}
    (h : a ∉ keys front) (blk : Block) (back : List (Addr × Block)) :
    storeBlock a blk (front ++ back) = front ++ storeBlock a blk back := by
  induction front with
  | nil => rfl
  | cons e front ih =>
    obtain ⟨b, old⟩ := e
    simp only [keys, List.map_cons, List.mem_cons, not_or] at h
    have hne : ¬ b = a := fun hb => h.1 hb.symm
    simp only [List.cons_append, storeBlock, hne, if_false]
    exact congrArg (List.cons (b, old)) (ih h.2)

theorem storeBlock_cons_self (a : Addr) (blk old : Block) (rest : List (Addr × Block)) :
    storeBlock a blk ((a, old) :: rest) = (a, blk) :: rest := by
  simp [storeBlock]

theorem filter_ne_of_not_mem {a : Addr} {l : List (Addr × Block)} (h : a ∉ keys l) :
    l.filter (fun e => e.1 != a) = l := by
  rw [List.filter_eq_self]
  intro e he
  have : e.1 ≠ a := fun hea => h (by rw [← hea]; exact List.mem_map_of_mem Prod.fst he)
  simpa using this

theorem take_succ_set {α : Type} (l : List α) (i : Nat) (v : α) (h : i < l.length) :
    (l.set i v).take (i + 1) = l.take i ++ [v] := by
  induction l generalizing i with
  | nil => simp at h
  | cons a l ih =>
    cases i with
    | zero => simp
    | succ i =>
      have hi : i < l.length := by simpa using h
      simp [ih i hi]

/-! ## The copy loops -/

theorem readBody_behind {a0 p : Addr} {blk : Block} {rest : List (Addr × Block)}
    {bc : List Body} (n i : Nat) (ha0 : a0 ≠ nullptr) (hne : p ≠ a0)
    (hfind : findBlock a0 rest = some (Block.bodies bc)) :
    Heap.readBody ⟨(p, blk) :: rest, n⟩ a0 i = bc[i]? := by
  simp [Heap.readBody, Heap.find, ha0, findBlock_cons_ne hne, hfind]

theorem modifyPoint_head {p : Addr} {pc : List Point3D} {rest : List (Addr × Block)}
    {c : Point3D} (n j : Nat) (f : Point3D → Point3D) (hp : p ≠ nullptr)
    (hc : pc[j]? = some c) :
    Heap.modifyPoint ⟨(p, Block.points pc) :: rest, n⟩ p j f =
      some ⟨(p, Block.points (pc.set j (f c))) :: rest, n⟩ := by
  simp [Heap.modifyPoint, Heap.find, hp, findBlock_cons_self, hc, storeBlock_cons_self]

theorem copyKeypoint_eq {a0 p : Addr} {pc : List Point3D} {rest : List (Addr × Block)}
    {bc : List Body} {c : Point3D} (nb np n i j : Nat) (k : float3)
    (ha0 : a0 ≠ nullptr) (hp : p ≠ nullptr) (hne : p ≠ a0)
    (hfind : findBlock a0 rest = some (Block.bodies bc)) (hb : bc[i]? = some ⟨np, p⟩)
    (hc : pc[j]? = some c) :
    copyKeypoint ⟨nb, a0⟩ i j k ⟨(p, Block.points pc) :: rest, n⟩ =
      some ⟨(p, Block.points (pc.set j (toPoint k))) :: rest, n⟩ := by
  have hj : j < pc.length := (List.getElem?_eq_some.1 hc).1
  simp only [copyKeypoint, readBody_behind n i ha0 hne hfind, hb, Option.bind_eq_bind,
    Option.some_bind]
  rw [modifyPoint_head n j _ hp hc]
  simp only [Option.some_bind, readBody_behind n i ha0 hne hfind, hb]
  rw [modifyPoint_head n j _ hp (List.getElem?_set_self hj)]
  simp only [Option.some_bind, readBody_behind n i ha0 hne hfind, hb]
  rw [modifyPoint_head n j _ hp (List.getElem?_set_self (by simpa using hj))]
  simp [List.set_set, toPoint]

theorem pointLoop_eq {a0 p : Addr} {rest : List (Addr × Block)} {bc : List Body}
    (cb : BodyData) (nb np n i : Nat)
    (ha0 : a0 ≠ nullptr) (hp : p ≠ nullptr) (hne : p ≠ a0)
    (hfind : findBlock a0 rest = some (Block.bodies bc)) (hb : bc[i]? = some ⟨np, p⟩) :
    ∀ (fuel j : Nat) (pc : List Point3D), pc.length = cb.keypoint.length →
      cb.keypoint.length ≤ j + fuel →
      pointLoop cb ⟨nb, a0⟩ i cb.keypoint.length fuel j ⟨(p, Block.points pc) :: rest, n⟩ =
        some ⟨(p, Block.points (pc.take j ++ (cb.keypoint.drop j).map toPoint)) :: rest, n⟩ := by
  intro fuel
  induction fuel with
  | zero =>
    intro j pc hlen hfuel
    have hj : ¬ j < cb.keypoint.length := by omega
    have h1 : List.take j pc = pc := List.take_of_length_le (by omega)
    have h2 : List.drop j cb.keypoint = [] := List.drop_of_length_le (by omega)
    simp [pointLoop, hj, h1, h2]
  | succ fuel ih =>
    intro j pc hlen hfuel
    by_cases hj : j < cb.keypoint.length
    · have hjp : j < pc.length := by omega
      have hk : cb.keypoint[j]? = some cb.keypoint[j] := List.getElem?_eq_getElem hj
      have hc : pc[j]? = some pc[j] := List.getElem?_eq_getElem hjp
      simp only [pointLoop, hj, if_true, hk]
      rw [copyKeypoint_eq nb np n i j _ ha0 hp hne hfind hb hc]
      simp only
      rw [ih (j + 1) _ (by simpa using hlen) (by omega)]
      rw [take_succ_set pc j _ hjp, List.drop_eq_getElem_cons hj]
      simp only [List.map_cons, List.append_assoc, List.singleton_append]
    · have h1 : List.take j pc = pc := List.take_of_length_le (by omega)
      have h2 : List.drop j cb.keypoint = [] := List.drop_of_length_le (by omega)
      simp [pointLoop, hj, h1, h2]

theorem find_mid {a0 : Addr} {front : List (Addr × Block)} (blk : Block)
    (back : List (Addr × Block)) (n : Nat) (ha0 : a0 ≠ nullptr) (hfront : a0 ∉ keys front) :
    Heap.find ⟨front ++ (a0, blk) :: back, n⟩ a0 = some blk := by
  simp [Heap.find, ha0, findBlock_append_of_not_mem hfront, findBlock_cons_self]

theorem modifyBody_mid {a0 : Addr} {front : List (Addr × Block)} {bc : List Body} {b : Body}
    (back : List (Addr × Block)) (n i : Nat) (f : Body → Body)
    (ha0 : a0 ≠ nullptr) (hfront : a0 ∉ keys front) (hb : bc[i]? = some b) :
    Heap.modifyBody ⟨front ++ (a0, Block.bodies bc) :: back, n⟩ a0 i f =
      some ⟨front ++ (a0, Block.bodies (bc.set i (f b))) :: back, n⟩ := by
  simp [Heap.modifyBody, find_mid _ back n ha0 hfront, hb,
    storeBlock_append_of_not_mem hfront, storeBlock_cons_self]

theorem readBody_mid {a0 : Addr} {front : List (Addr × Block)} (bc : List Body)
    (back : List (Addr × Block)) (n i : Nat)
    (ha0 : a0 ≠ nullptr) (hfront : a0 ∉ keys front) :
    Heap.readBody ⟨front ++ (a0, Block.bodies bc) :: back, n⟩ a0 i = bc[i]? := by
  simp [Heap.readBody, find_mid _ back n ha0 hfront]

theorem copyBody_eq {rt : Runtime} (hrt : Fresh rt) {a0 : Addr} {pre : List (Addr × Block)}
    {bc : List Body} (cb : BodyData) (old : List (Addr × Block)) (nb n i : Nat)
    (ha0 : a0 ≠ nullptr) (hpre : a0 ∉ keys pre) (hi : i < bc.length) :
    copyBody rt cb ⟨nb, a0⟩ i ⟨pre ++ (a0, Block.bodies bc) :: old, n⟩ =
      some ⟨(rt.pick n (keys pre ++ a0 :: keys old), Block.points (cb.keypoint.map toPoint)) ::
        (pre ++ (a0, Block.bodies (bc.set i ⟨cb.keypoint.length,
          rt.pick n (keys pre ++ a0 :: keys old)⟩)) :: old), n + 1⟩ := by
  have hb : bc[i]? = some bc[i] := List.getElem?_eq_getElem hi
  have hlive : ∀ cells : List Body,
      Heap.live ⟨pre ++ (a0, Block.bodies cells) :: old, n⟩ = keys pre ++ a0 :: keys old := by
    intro cells
    simp [Heap.live, keys]
  obtain ⟨hp0, hpl⟩ := hrt n (keys pre ++ a0 :: keys old)
  have hpa : rt.pick n (keys pre ++ a0 :: keys old) ≠ a0 := by
    intro h
    apply hpl
    rw [h]
    simp
  simp only [copyBody]
  rw [modifyBody_mid old n i _ ha0 hpre hb]
  simp only [Heap.new_Point3D, hlive]
  have hfront : a0 ∉ keys ((rt.pick n (keys pre ++ a0 :: keys old),
      Block.points ((List.range cb.keypoint.length).map (rt.junkPoint n))) :: pre) := by
    simp only [keys_cons, List.mem_cons, not_or]
    exact ⟨Ne.symm hpa, hpre⟩
  have hmod := @modifyBody_mid a0 ((rt.pick n (keys pre ++ a0 :: keys old),
      Block.points ((List.range cb.keypoint.length).map (rt.junkPoint n))) :: pre)
      (bc.set i { bc[i] with num_points := cb.keypoint.length })
      { bc[i] with num_points := cb.keypoint.length } old (n + 1) i
      (fun b => { b with points := rt.pick n (keys pre ++ a0 :: keys old) }) ha0
      hfront (List.getElem?_set_self hi)
  simp only [List.cons_append] at hmod
  rw [hmod]
  simp only [List.set_set]
  have hfind : findBlock a0 (pre ++ (a0, Block.bodies (bc.set i ⟨cb.keypoint.length,
      rt.pick n (keys pre ++ a0 :: keys old)⟩)) :: old) =
      some (Block.bodies (bc.set i ⟨cb.keypoint.length,
        rt.pick n (keys pre ++ a0 :: keys old)⟩)) := by
    rw [findBlock_append_of_not_mem hpre, findBlock_cons_self]
  have hloop := pointLoop_eq cb nb cb.keypoint.length (n + 1) i ha0 hp0 hpa hfind
    (List.getElem?_set_self hi) cb.keypoint.length 0
    ((List.range cb.keypoint.length).map (rt.junkPoint n)) (by simp) (by omega)
  simpa using hloop

theorem bodyLoop_eq {rt : Runtime} (hrt : Fresh rt) (bodies : Bodies) (nb : Nat) {a0 : Addr}
    (ha0 : a0 ≠ nullptr) (old : List (Addr × Block)) :
    ∀ (fuel i : Nat) (pre : List (Addr × Block)) (bc : List Body) (n : Nat),
      bc.length = bodies.body_list.length → bodies.body_list.length ≤ i + fuel →
      a0 ∉ keys pre →
      bodyLoop rt bodies ⟨nb, a0⟩ bodies.body_list.length fuel i
          ⟨pre ++ (a0, Block.bodies bc) :: old, n⟩ =
        some ⟨ptBlocks rt (keys pre ++ a0 :: keys old) n (bodies.body_list.drop i) ++
          (pre ++ (a0, Block.bodies (bc.take i ++
            newCells rt (keys pre ++ a0 :: keys old) n (bodies.body_list.drop i))) :: old),
          n + (bodies.body_list.length - i)⟩ := by
  intro fuel
  induction fuel with
  | zero =>
    intro i pre bc n hlen hfuel hpre
    have hi : ¬ i < bodies.body_list.length := by omega
    have h1 : List.take i bc = bc := List.take_of_length_le (by omega)
    have h2 : List.drop i bodies.body_list = [] := List.drop_of_length_le (by omega)
    have h3 : bodies.body_list.length - i = 0 := by omega
    simp [bodyLoop, hi, h1, h2, h3, ptBlocks, newCells]
  | succ fuel ih =>
    intro i pre bc n hlen hfuel hpre
    by_cases hi : i < bodies.body_list.length
    · have hib : i < bc.length := by omega
      have hk : bodies.body_list[i]? = some bodies.body_list[i] := List.getElem?_eq_getElem hi
      obtain ⟨hp0, hpl⟩ := hrt n (keys pre ++ a0 :: keys old)
      have hpa : a0 ≠ rt.pick n (keys pre ++ a0 :: keys old) := by
        intro h
        apply hpl
        rw [← h]
        simp
      simp only [bodyLoop, hi, if_true, hk]
      rw [copyBody_eq hrt _ old nb n i ha0 hpre hib]
      simp only
      have hpre2 : a0 ∉ keys ((rt.pick n (keys pre ++ a0 :: keys old),
          Block.points (bodies.body_list[i].keypoint.map toPoint)) :: pre) := by
        simp only [keys_cons, List.mem_cons, not_or]
        exact ⟨hpa, hpre⟩
      have hstep := ih (i + 1) _ (bc.set i ⟨bodies.body_list[i].keypoint.length,
        rt.pick n (keys pre ++ a0 :: keys old)⟩) (n + 1) (by simpa using hlen) (by omega) hpre2
      simp only [List.cons_append] at hstep
      rw [hstep, take_succ_set bc i _ hib, List.drop_eq_getElem_cons hi]
      simp only [ptBlocks, newCells, keys_cons, List.cons_append, List.append_assoc,
        List.singleton_append, List.nil_append]
      have h3 : n + 1 + (bodies.body_list.length - (i + 1)) =
          n + (bodies.body_list.length - i) := by omega
      rw [h3]
    · have h1 : List.take i bc = bc := List.take_of_length_le (by omega)
      have h2 : List.drop i bodies.body_list = [] := List.drop_of_length_le (by omega)
      have h3 : bodies.body_list.length - i = 0 := by omega
      simp [bodyLoop, hi, h1, h2, h3, ptBlocks, newCells]

/-! ## What a poll leaves in the free store -/

theorem poll_fail (rt : Runtime) (zed : Camera) (s : State)
    (hgrab : zed.grab s.calls ≠ ERROR_CODE.SUCCESS) :
    poll_body_keypoints rt zed s =
      some (⟨0, nullptr⟩, { s with calls := s.calls ++ [DeviceEvent.grab (zed.grab s.calls)] }) := by
  simp [poll_body_keypoints, hgrab]

theorem poll_stale (rt : Runtime) (zed : Camera) (s : State) (bodies : Bodies)
    (hgrab : zed.grab s.calls = ERROR_CODE.SUCCESS)
    (hret : zed.retrieveBodies (s.calls ++ [DeviceEvent.grab ERROR_CODE.SUCCESS])
      s.detection_parameters_rt = bodies)
    (hnew : bodies.is_new = false) :
    poll_body_keypoints rt zed s =
      some (⟨0, nullptr⟩, { s with calls := s.calls ++ [DeviceEvent.grab ERROR_CODE.SUCCESS,
        DeviceEvent.retrieveBodies s.detection_parameters_rt bodies] }) := by
  simp [poll_body_keypoints, hgrab, hret, hnew]

theorem poll_new {rt : Runtime} (hrt : Fresh rt) (zed : Camera) (s : State) (bodies : Bodies)
    (hgrab : zed.grab s.calls = ERROR_CODE.SUCCESS)
    (hret : zed.retrieveBodies (s.calls ++ [DeviceEvent.grab ERROR_CODE.SUCCESS])
      s.detection_parameters_rt = bodies)
    (hnew : bodies.is_new = true) :
    poll_body_keypoints rt zed s =
      some (⟨bodies.body_list.length, rt.pick s.heap.allocs s.heap.live⟩,
        { s with
          calls := s.calls ++ [DeviceEvent.grab ERROR_CODE.SUCCESS,
            DeviceEvent.retrieveBodies s.detection_parameters_rt bodies]
          heap := ⟨ptBlocks rt (rt.pick s.heap.allocs s.heap.live :: s.heap.live)
              (s.heap.allocs + 1) bodies.body_list ++
            (rt.pick s.heap.allocs s.heap.live, Block.bodies
              (newCells rt (rt.pick s.heap.allocs s.heap.live :: s.heap.live)
                (s.heap.allocs + 1) bodies.body_list)) :: s.heap.blocks,
            s.heap.allocs + 1 + bodies.body_list.length⟩ }) := by
  have hloop := bodyLoop_eq hrt bodies bodies.body_list.length (hrt s.heap.allocs s.heap.live).1
    s.heap.blocks bodies.body_list.length 0 []
    ((List.range bodies.body_list.length).map (rt.junkBody s.heap.allocs)) (s.heap.allocs + 1)
    (by simp) (by omega) (by simp [keys])
  simp only [List.nil_append, keys, List.map_nil, List.drop_zero, List.take_zero,
    Nat.sub_zero] at hloop
  simp only [Heap.live] at hloop
  simp only [poll_body_keypoints, hgrab, if_true, hret, hnew, Heap.new_Body, Heap.live, hloop]
  simp

theorem ptBlocks_fresh {rt : Runtime} (hrt : Fresh rt) :
    ∀ (bs : List BodyData) (live : List Addr) (n : Nat),
      ∀ a ∈ keys (ptBlocks rt live n bs), a ≠ nullptr ∧ a ∉ live := by
  intro bs
  induction bs with
  | nil => intro live n a ha; simp [ptBlocks, keys] at ha
  | cons cb rest ih =>
    intro live n a ha
    simp only [ptBlocks, keys_append, List.mem_append] at ha
    rcases ha with ha | ha
    · obtain ⟨h0, hl⟩ := ih _ _ a ha
      exact ⟨h0, fun h => hl (List.mem_cons_of_mem _ h)⟩
    · simp only [keys, List.map_cons, List.map_nil, List.mem_singleton] at ha
      rw [ha]
      exact hrt n live

theorem newCells_lookup {rt : Runtime} (hrt : Fresh rt) :
    ∀ (bs : List BodyData) (live : List Addr) (n k : Nat) (hk : k < bs.length),
      ∃ q, (newCells rt live n bs)[k]? = some ⟨bs[k].keypoint.length, q⟩ ∧
        q ∈ keys (ptBlocks rt live n bs) ∧
        ∀ back, findBlock q (ptBlocks rt live n bs ++ back) =
          some (Block.points (bs[k].keypoint.map toPoint)) := by
  intro bs
  induction bs with
  | nil => intro live n k hk; simp at hk
  | cons cb rest ih =>
    intro live n k hk
    cases k with
    | zero =>
      refine ⟨rt.pick n live, by simp [newCells], by simp [ptBlocks, keys], ?_⟩
      intro back
      have hnot : rt.pick n live ∉ keys (ptBlocks rt (rt.pick n live :: live) (n + 1) rest) := by
        intro hmem
        exact (ptBlocks_fresh hrt rest _ _ _ hmem).2 (List.mem_cons_self _ _)
      simp only [ptBlocks, List.append_assoc, List.singleton_append]
      rw [findBlock_append_of_not_mem hnot, findBlock_cons_self]
      simp
    | succ k =>
      have hk2 : k < rest.length := by simpa using hk
      obtain ⟨q, h1, h2, h3⟩ := ih (rt.pick n live :: live) (n + 1) k hk2
      refine ⟨q, by simpa [newCells] using h1, ?_, ?_⟩
      · simp only [ptBlocks, keys_append, List.mem_append]
        exact Or.inl h2
      · intro back
        simp only [ptBlocks, List.append_assoc]
        simpa using h3 ([(rt.pick n live, Block.points (cb.keypoint.map toPoint))] ++ back)

/-! ## Releasing a snapshot -/

theorem freeLoop_eq {rt : Runtime} (hrt : Fresh rt) {a0 : Addr} (ha0 : a0 ≠ nullptr)
    (front old : List (Addr × Block)) (nb m : Nat) :
    ∀ (bs : List BodyData) (fuel i : Nat) (live : List Addr) (n : Nat) (done : List Body),
      done.length = i → nb = i + bs.length → bs.length ≤ fuel → a0 ∈ live →
      (∀ a ∈ keys old, a ∈ live) →
      (∀ a ∈ keys front, a ∉ keys (ptBlocks rt live n bs) ∧ a ≠ a0) →
      freeLoop ⟨nb, a0⟩ fuel i ⟨front ++ (ptBlocks rt live n bs ++
          (a0, Block.bodies (done ++ newCells rt live n bs)) :: old), m⟩ =
        some ⟨front ++ (a0, Block.bodies (done ++ newCells rt live n bs)) :: old, m⟩ := by
  intro bs
  induction bs with
  | nil =>
    intro fuel i live n done hdone hnb _ _ _ _
    have hi : ¬ i < nb := by simp at hnb; omega
    cases fuel <;> simp [freeLoop, hi, ptBlocks]
  | cons cb rest ih =>
    intro fuel i live n done hdone hnb hfuel hlive hold hfront
    obtain ⟨hp0, hpl⟩ := hrt n live
    cases fuel with
    | zero => simp at hfuel
    | succ fuel =>
      have hi : i < nb := by simp at hnb; omega
      have hpa : rt.pick n live ≠ a0 := fun h => hpl (h ▸ hlive)
      have hpts : a0 ∉ keys (front ++ ptBlocks rt live n (cb :: rest)) := by
        rw [keys_append, List.mem_append, not_or]
        refine ⟨fun h => (hfront a0 h).2 rfl, fun h => ?_⟩
        exact (ptBlocks_fresh hrt _ _ _ _ h).2 hlive
      have hread : Heap.readBody ⟨front ++ (ptBlocks rt live n (cb :: rest) ++
          (a0, Block.bodies (done ++ newCells rt live n (cb :: rest))) :: old), m⟩ a0 i =
          some ⟨cb.keypoint.length, rt.pick n live⟩ := by
        rw [← List.append_assoc, readBody_mid _ _ _ _ ha0 hpts]
        rw [List.getElem?_append_right (by omega)]
        simp [hdone, newCells]
      have hrest : rt.pick n live ∉ keys (ptBlocks rt (rt.pick n live :: live) (n + 1) rest) :=
        fun h => (ptBlocks_fresh hrt rest _ _ _ h).2 (List.mem_cons_self _ _)
      have hfr : rt.pick n live ∉ keys front := by
        intro h
        apply (hfront _ h).1
        simp [ptBlocks, keys]
      have hol : rt.pick n live ∉ keys old := fun h => hpl (hold _ h)
      have hdel : Heap.delete ⟨front ++ (ptBlocks rt live n (cb :: rest) ++
          (a0, Block.bodies (done ++ newCells rt live n (cb :: rest))) :: old), m⟩
          (rt.pick n live) =
          some ⟨front ++ (ptBlocks rt (rt.pick n live :: live) (n + 1) rest ++
            (a0, Block.bodies (done ++ newCells rt live n (cb :: rest))) :: old), m⟩ := by
        have hmem : rt.pick n live ∈ Heap.live ⟨front ++ (ptBlocks rt live n (cb :: rest) ++
            (a0, Block.bodies (done ++ newCells rt live n (cb :: rest))) :: old), m⟩ := by
          simp [Heap.live, ptBlocks]
        unfold Heap.delete
        rw [if_neg hp0, if_pos hmem]
        simp only [ptBlocks, List.filter_append, filter_ne_of_not_mem hfr,
          filter_ne_of_not_mem hrest, List.filter_cons, filter_ne_of_not_mem hol]
        simp [Ne.symm hpa]
      simp only [freeLoop, hi, if_true, hread, hdel]
      have hstep := ih fuel (i + 1) (rt.pick n live :: live) (n + 1)
        (done ++ [⟨cb.keypoint.length, rt.pick n live⟩]) (by simp [hdone])
        (by simp at hnb ⊢; omega) (by simpa using hfuel) (List.mem_cons_of_mem _ hlive)
        (fun a ha => List.mem_cons_of_mem _ (hold a ha))
        (fun a ha => ⟨fun h => (hfront a ha).1 (by
          simp only [ptBlocks, keys_append, List.mem_append]
          exact Or.inl h), (hfront a ha).2⟩)
      simpa [newCells] using hstep

theorem free_snapshot {rt : Runtime} (hrt : Fresh rt) {a0 : Addr} (ha0 : a0 ≠ nullptr)
    (front old : List (Addr × Block)) (bs : List BodyData) (n m : Nat) (s : State)
    (hold : a0 ∉ keys old)
    (hfront : ∀ a ∈ keys front, a ∉ keys (ptBlocks rt (a0 :: keys old) n bs) ∧ a ≠ a0)
    (hs : s.heap = ⟨front ++ (ptBlocks rt (a0 :: keys old) n bs ++
      (a0, Block.bodies (newCells rt (a0 :: keys old) n bs)) :: old), m⟩) :
    free_body_list ⟨bs.length, a0⟩ s = some { s with heap := ⟨front ++ old, m⟩ } := by
  have hloop := freeLoop_eq hrt ha0 front old bs.length m bs bs.length 0 (a0 :: keys old) n []
    rfl (by simp) (Nat.le_refl _) (List.mem_cons_self _ _)
    (fun a ha => List.mem_cons_of_mem _ ha) hfront
  simp only [List.nil_append] at hloop
  have ha0f : a0 ∉ keys front := fun h => (hfront a0 h).2 rfl
  have hdel : Heap.delete ⟨front ++ (a0, Block.bodies (newCells rt (a0 :: keys old) n bs)) :: old,
      m⟩ a0 = some ⟨front ++ old, m⟩ := by
    have hmem : a0 ∈ Heap.live ⟨front ++
        (a0, Block.bodies (newCells rt (a0 :: keys old) n bs)) :: old, m⟩ := by
      simp [Heap.live]
    unfold Heap.delete
    rw [if_neg ha0, if_pos hmem]
    simp only [List.filter_append, filter_ne_of_not_mem ha0f, List.filter_cons,
      filter_ne_of_not_mem hold]
    simp
  simp only [free_body_list, hs, hloop, hdel]

theorem free_null (s : State) : free_body_list ⟨0, nullptr⟩ s = some s := by
  simp [free_body_list, freeLoop, Heap.delete]
/-! ## The runtime used for evaluation is fresh -/

theorem le_foldr_max (live : List Addr) : ∀ a ∈ live, a ≤ live.foldr max 0 := by
  induction live with
  | nil => intro a ha; simp at ha
  | cons b live ih =>
    intro a ha
    simp only [List.mem_cons] at ha
    simp only [List.foldr_cons]
    rcases ha with rfl | ha
    · exact Nat.le_max_left _ _
    · exact Nat.le_trans (ih a ha) (Nat.le_max_right _ _)

theorem bumpRuntime_fresh : Fresh bumpRuntime := by
  intro n live
  refine ⟨by simp [bumpRuntime, nullptr], fun h => ?_⟩
  have := le_foldr_max live _ h
  simp [bumpRuntime] at this

/-! ## The claims -/

/-- C1: when the grab succeeds and the retrieved result is marked new, the poll
returns a snapshot whose `num_bodies` is the number of tracked bodies, and for
every index `i` below it `bodies[i].num_points` is the keypoint count of the
device's body `i` and `points[j]` has the x, y and z of that body's keypoint
`j`, for every `j` below that count. -/
theorem poll_returns_device_bodies (rt : Runtime) (hrt : Fresh rt) (zed : Camera) (s : State)
    (bodies : Bodies) (hgrab : zed.grab s.calls = ERROR_CODE.SUCCESS)
    (hret : zed.retrieveBodies (s.calls ++ [DeviceEvent.grab ERROR_CODE.SUCCESS])
      s.detection_parameters_rt = bodies)
    (hnew : bodies.is_new = true) :
    ∃ bl s1, poll_body_keypoints rt zed s = some (bl, s1) ∧
      bl.num_bodies = bodies.body_list.length ∧
      ∀ (i : Nat) (hi : i < bodies.body_list.length),
        ∃ b, s1.heap.readBody bl.bodies i = some b ∧
          b.num_points = bodies.body_list[i].keypoint.length ∧
          ∀ (j : Nat) (hj : j < bodies.body_list[i].keypoint.length),
            ∃ pt, s1.heap.readPoint b.points j = some pt ∧
              pt.x = bodies.body_list[i].keypoint[j].x ∧
              pt.y = bodies.body_list[i].keypoint[j].y ∧
              pt.z = bodies.body_list[i].keypoint[j].z := by
  refine ⟨_, _, poll_new hrt zed s bodies hgrab hret hnew, rfl, ?_⟩
  intro i hi
  obtain ⟨hp0, hpl⟩ := hrt s.heap.allocs s.heap.live
  obtain ⟨q, h1, h2, h3⟩ := newCells_lookup hrt bodies.body_list
    (rt.pick s.heap.allocs s.heap.live :: s.heap.live) (s.heap.allocs + 1) i hi
  have hq := ptBlocks_fresh hrt _ _ _ q h2
  have ha0 : rt.pick s.heap.allocs s.heap.live ∉ keys (ptBlocks rt
      (rt.pick s.heap.allocs s.heap.live :: s.heap.live) (s.heap.allocs + 1)
      bodies.body_list) :=
    fun h => (ptBlocks_fresh hrt _ _ _ _ h).2 (List.mem_cons_self _ _)
  refine ⟨⟨bodies.body_list[i].keypoint.length, q⟩, ?_, rfl, ?_⟩
  · simp only
    rw [readBody_mid _ _ _ _ hp0 ha0]
    exact h1
  · intro j hj
    refine ⟨toPoint bodies.body_list[i].keypoint[j], ?_, rfl, rfl, rfl⟩
    simp only [Heap.readPoint, Heap.find, hq.1, if_false, h3]
    simp [hj]

/-- C1, evaluated: two bodies of two and of one keypoint. -/
theorem poll_returns_device_bodies_witness :
    Fresh bumpRuntime ∧
    (steadyCamera twoBodies).grab emptyState.calls = ERROR_CODE.SUCCESS ∧
    twoBodies.is_new = true ∧
    ∃ bl s1, poll_body_keypoints bumpRuntime (steadyCamera twoBodies) emptyState = some (bl, s1) ∧
      bl.num_bodies = twoBodies.body_list.length ∧
      ∀ (i : Nat) (hi : i < twoBodies.body_list.length),
        ∃ b, s1.heap.readBody bl.bodies i = some b ∧
          b.num_points = twoBodies.body_list[i].keypoint.length ∧
          ∀ (j : Nat) (hj : j < twoBodies.body_list[i].keypoint.length),
            ∃ pt, s1.heap.readPoint b.points j = some pt ∧
              pt.x = twoBodies.body_list[i].keypoint[j].x ∧
              pt.y = twoBodies.body_list[i].keypoint[j].y ∧
              pt.z = twoBodies.body_list[i].keypoint[j].z :=
  ⟨bumpRuntime_fresh, rfl, rfl,
    poll_returns_device_bodies bumpRuntime bumpRuntime_fresh (steadyCamera twoBodies) emptyState
      twoBodies rfl rfl rfl⟩

/-- C2: when the grab does not succeed, the poll returns `num_bodies = 0` with
the null `bodies` pointer, leaves the free store as it was, and the only device
call it makes is the grab: no retrieval. -/
theorem poll_grab_failure (rt : Runtime) (zed : Camera) (s : State)
    (hgrab : zed.grab s.calls ≠ ERROR_CODE.SUCCESS) :
    ∃ s1, poll_body_keypoints rt zed s = some (⟨0, nullptr⟩, s1) ∧
      s1.heap = s.heap ∧
      s1.calls = s.calls ++ [DeviceEvent.grab (zed.grab s.calls)] ∧
      ∀ e ∈ s1.calls.drop s.calls.length, ∀ p b, e ≠ DeviceEvent.retrieveBodies p b := by
  refine ⟨_, poll_fail rt zed s hgrab, rfl, rfl, ?_⟩
  intro e he p b
  simp only [List.drop_left, List.mem_singleton] at he
  rw [he]
  exact fun h => DeviceEvent.noConfusion h

/-- C2, evaluated on a camera whose grab fails. -/
theorem poll_grab_failure_witness :
    deadCamera.grab emptyState.calls ≠ ERROR_CODE.SUCCESS ∧
    ∃ s1, poll_body_keypoints bumpRuntime deadCamera emptyState = some (⟨0, nullptr⟩, s1) ∧
      s1.heap = emptyState.heap ∧
      s1.calls = emptyState.calls ++ [DeviceEvent.grab (deadCamera.grab emptyState.calls)] ∧
      ∀ e ∈ s1.calls.drop emptyState.calls.length, ∀ p b, e ≠ DeviceEvent.retrieveBodies p b :=
  ⟨by decide, poll_grab_failure bumpRuntime deadCamera emptyState (by decide)⟩

/-- C3: when the grab succeeds but the retrieved result is not marked new,
whatever bodies the buffer holds, the poll returns `num_bodies = 0` with the null
`bodies` pointer and leaves the free store as it was; this is the very snapshot
any poll returns whose grab fails. -/
theorem poll_no_new_data (rt : Runtime) (zed : Camera) (s : State) (bodies : Bodies)
    (hgrab : zed.grab s.calls = ERROR_CODE.SUCCESS)
    (hret : zed.retrieveBodies (s.calls ++ [DeviceEvent.grab ERROR_CODE.SUCCESS])
      s.detection_parameters_rt = bodies)
    (hnew : bodies.is_new = false) :
    (∃ s1, poll_body_keypoints rt zed s = some (⟨0, nullptr⟩, s1) ∧ s1.heap = s.heap) ∧
    ∀ (rt2 : Runtime) (zed2 : Camera) (s2 : State), zed2.grab s2.calls ≠ ERROR_CODE.SUCCESS →
      (poll_body_keypoints rt2 zed2 s2).map Prod.fst =
        (poll_body_keypoints rt zed s).map Prod.fst := by
  refine ⟨⟨_, poll_stale rt zed s bodies hgrab hret hnew, rfl⟩, ?_⟩
  intro rt2 zed2 s2 h2
  rw [poll_fail rt2 zed2 s2 h2, poll_stale rt zed s bodies hgrab hret hnew]
  rfl

/-- C3, evaluated on a buffer that holds a body but is not new. -/
theorem poll_no_new_data_witness :
    (steadyCamera staleBodies).grab emptyState.calls = ERROR_CODE.SUCCESS ∧
    staleBodies.is_new = false ∧
    (∃ s1, poll_body_keypoints bumpRuntime (steadyCamera staleBodies) emptyState =
        some (⟨0, nullptr⟩, s1) ∧ s1.heap = emptyState.heap) ∧
    ∀ (rt2 : Runtime) (zed2 : Camera) (s2 : State), zed2.grab s2.calls ≠ ERROR_CODE.SUCCESS →
      (poll_body_keypoints rt2 zed2 s2).map Prod.fst =
        (poll_body_keypoints bumpRuntime (steadyCamera staleBodies) emptyState).map Prod.fst :=
  ⟨rfl, rfl, poll_no_new_data bumpRuntime (steadyCamera staleBodies) emptyState staleBodies
    rfl rfl rfl⟩

/-- C5: when `open` does not succeed, `init_zed` exits with the non-zero status
`EXIT_FAILURE`, and `open` is the only device call it has made: no positional
tracking, no body tracking, no close; the parameter sets and the free store are
untouched, and whatever the caller meant to call next, nothing more happens. -/
theorem init_zed_open_failure (rt : Runtime) (zed : Camera) (s : State)
    (hopen : zed.open_ s.calls openParameters ≠ ERROR_CODE.SUCCESS) :
    ∃ s1, init_zed zed s = Outcome.exited EXIT_FAILURE s1 ∧ EXIT_FAILURE ≠ 0 ∧
      s1.calls = s.calls ++
        [DeviceEvent.open_ openParameters (zed.open_ s.calls openParameters)] ∧
      s1.heap = s.heap ∧
      s1.detection_parameters = s.detection_parameters ∧
      s1.detection_parameters_rt = s.detection_parameters_rt ∧
      ∀ rest : List ApiCall, runApi rt zed (ApiCall.init_zed :: rest) s = s1 := by
  have hopen2 : zed.open_ s.calls ⟨RESOLUTION.HD720, DEPTH_MODE.PERFORMANCE, UNIT.METER, true⟩ ≠
      ERROR_CODE.SUCCESS := hopen
  have hinit : init_zed zed s = Outcome.exited EXIT_FAILURE
      { s with
        calls := s.calls ++ [DeviceEvent.open_ openParameters (zed.open_ s.calls openParameters)]
        out := s.out ++ [OutItem.text "Error ",
          OutItem.code (zed.open_ s.calls openParameters),
          OutItem.text ", ZED Camera Initialization Failed.\n"] } := by
    simp only [init_zed, ne_eq, hopen2, not_false_eq_true, if_true]
    rfl
  refine ⟨_, hinit, by decide, rfl, rfl, rfl, rfl, ?_⟩
  intro rest
  simp only [runApi, hinit]

/-- C5, evaluated on a camera that cannot be opened. -/
theorem init_zed_open_failure_witness :
    deadCamera.open_ emptyState.calls openParameters ≠ ERROR_CODE.SUCCESS ∧
    ∃ s1, init_zed deadCamera emptyState = Outcome.exited EXIT_FAILURE s1 ∧ EXIT_FAILURE ≠ 0 ∧
      s1.calls = emptyState.calls ++
        [DeviceEvent.open_ openParameters (deadCamera.open_ emptyState.calls openParameters)] ∧
      s1.heap = emptyState.heap ∧
      s1.detection_parameters = emptyState.detection_parameters ∧
      s1.detection_parameters_rt = emptyState.detection_parameters_rt ∧
      ∀ rest : List ApiCall,
        runApi bumpRuntime deadCamera (ApiCall.init_zed :: rest) emptyState = s1 :=
  ⟨by decide, init_zed_open_failure bumpRuntime deadCamera emptyState (by decide)⟩

/-- C6: when `open` succeeds and `enableBodyTracking` does not, the device calls
of `init_zed` are, in order, open, enable positional tracking, enable body
tracking and one close; it then exits with the non-zero status `EXIT_FAILURE`,
and the runtime parameters, confidence threshold included, are as before. -/
theorem init_zed_tracking_failure (rt : Runtime) (zed : Camera) (s : State)
    (hopen : zed.open_ s.calls openParameters = ERROR_CODE.SUCCESS)
    (htrack : zed.enableBodyTracking (s.calls ++
      [DeviceEvent.open_ openParameters ERROR_CODE.SUCCESS, DeviceEvent.enablePositionalTracking])
      trackingParameters ≠ ERROR_CODE.SUCCESS) :
    ∃ s1, init_zed zed s = Outcome.exited EXIT_FAILURE s1 ∧ EXIT_FAILURE ≠ 0 ∧
      s1.calls = s.calls ++
        [DeviceEvent.open_ openParameters ERROR_CODE.SUCCESS,
          DeviceEvent.enablePositionalTracking,
          DeviceEvent.enableBodyTracking trackingParameters
            (zed.enableBodyTracking (s.calls ++
              [DeviceEvent.open_ openParameters ERROR_CODE.SUCCESS,
                DeviceEvent.enablePositionalTracking]) trackingParameters),
          DeviceEvent.close] ∧
      s1.detection_parameters_rt = s.detection_parameters_rt ∧
      ∀ rest : List ApiCall, runApi rt zed (ApiCall.init_zed :: rest) s = s1 := by
  have hopen2 : zed.open_ s.calls ⟨RESOLUTION.HD720, DEPTH_MODE.PERFORMANCE, UNIT.METER, true⟩ =
      ERROR_CODE.SUCCESS := hopen
  have htrack2 : zed.enableBodyTracking (s.calls ++
      [DeviceEvent.open_ ⟨RESOLUTION.HD720, DEPTH_MODE.PERFORMANCE, UNIT.METER, true⟩
        ERROR_CODE.SUCCESS] ++ [DeviceEvent.enablePositionalTracking])
      ⟨BODY_TRACKING_MODEL.HUMAN_BODY_MEDIUM, BODY_FORMAT.BODY_38, true, true, true⟩ ≠
      ERROR_CODE.SUCCESS := by
    simpa [openParameters, trackingParameters] using htrack
  have hinit : init_zed zed s = Outcome.exited EXIT_FAILURE
      { s with
        calls := s.calls ++
          [DeviceEvent.open_ openParameters ERROR_CODE.SUCCESS,
            DeviceEvent.enablePositionalTracking,
            DeviceEvent.enableBodyTracking trackingParameters
              (zed.enableBodyTracking (s.calls ++
                [DeviceEvent.open_ openParameters ERROR_CODE.SUCCESS,
                  DeviceEvent.enablePositionalTracking]) trackingParameters),
            DeviceEvent.close]
        out := s.out ++ [OutItem.text "Error ",
          OutItem.code (zed.enableBodyTracking (s.calls ++
            [DeviceEvent.open_ openParameters ERROR_CODE.SUCCESS,
              DeviceEvent.enablePositionalTracking]) trackingParameters),
          OutItem.text ", Body Tracking Initialization Failed.\n"]
        detection_parameters := trackingParameters } := by
    simp only [init_zed, ne_eq, hopen2, not_true_eq_false, if_false, if_true, htrack2,
      not_false_eq_true]
    simp [openParameters, trackingParameters]
  refine ⟨_, hinit, by decide, rfl, rfl, ?_⟩
  intro rest
  simp only [runApi, hinit]

/-- C6, evaluated on a camera that opens but cannot enable body tracking. -/
theorem init_zed_tracking_failure_witness :
    noTrackingCamera.open_ emptyState.calls openParameters = ERROR_CODE.SUCCESS ∧
    noTrackingCamera.enableBodyTracking (emptyState.calls ++
      [DeviceEvent.open_ openParameters ERROR_CODE.SUCCESS, DeviceEvent.enablePositionalTracking])
      trackingParameters ≠ ERROR_CODE.SUCCESS ∧
    ∃ s1, init_zed noTrackingCamera emptyState = Outcome.exited EXIT_FAILURE s1 ∧
      EXIT_FAILURE ≠ 0 ∧
      s1.calls = emptyState.calls ++
        [DeviceEvent.open_ openParameters ERROR_CODE.SUCCESS,
          DeviceEvent.enablePositionalTracking,
          DeviceEvent.enableBodyTracking trackingParameters
            (noTrackingCamera.enableBodyTracking (emptyState.calls ++
              [DeviceEvent.open_ openParameters ERROR_CODE.SUCCESS,
                DeviceEvent.enablePositionalTracking]) trackingParameters),
          DeviceEvent.close] ∧
      s1.detection_parameters_rt = emptyState.detection_parameters_rt ∧
      ∀ rest : List ApiCall,
        runApi bumpRuntime noTrackingCamera (ApiCall.init_zed :: rest) emptyState = s1 :=
  ⟨rfl, by decide,
    init_zed_tracking_failure bumpRuntime noTrackingCamera emptyState rfl (by decide)⟩

/-- C4: for every device response, the poll succeeds and only adds blocks to the
free store, and one `free_body_list` on the snapshot it returned succeeds and
leaves exactly the blocks that were live before the poll, with their content;
when the snapshot holds the null pointer, `free_body_list` changes nothing. -/
theorem poll_then_free_restores (rt : Runtime) (hrt : Fresh rt) (zed : Camera) (s : State) :
    ∃ bl s1 s2, poll_body_keypoints rt zed s = some (bl, s1) ∧
      (∃ news, s1.heap.blocks = news ++ s.heap.blocks) ∧
      free_body_list bl s1 = some s2 ∧
      s2.heap.blocks = s.heap.blocks ∧
      (bl.bodies = nullptr → s2 = s1) := by
  by_cases hgrab : zed.grab s.calls = ERROR_CODE.SUCCESS
  · cases hnew : (zed.retrieveBodies (s.calls ++ [DeviceEvent.grab ERROR_CODE.SUCCESS])
        s.detection_parameters_rt).is_new with
    | false =>
      exact ⟨_, _, _, poll_stale rt zed s _ hgrab rfl hnew, ⟨[], rfl⟩, free_null _, rfl,
        fun _ => rfl⟩
    | true =>
      obtain ⟨hp0, hpl⟩ := hrt s.heap.allocs s.heap.live
      have hpoll := poll_new hrt zed s _ hgrab rfl hnew
      have hfree := free_snapshot hrt hp0 [] s.heap.blocks
        (zed.retrieveBodies (s.calls ++ [DeviceEvent.grab ERROR_CODE.SUCCESS])
          s.detection_parameters_rt).body_list (s.heap.allocs + 1)
        (s.heap.allocs + 1 + (zed.retrieveBodies (s.calls ++
          [DeviceEvent.grab ERROR_CODE.SUCCESS]) s.detection_parameters_rt).body_list.length)
        { s with
          calls := s.calls ++ [DeviceEvent.grab ERROR_CODE.SUCCESS,
            DeviceEvent.retrieveBodies s.detection_parameters_rt (zed.retrieveBodies
              (s.calls ++ [DeviceEvent.grab ERROR_CODE.SUCCESS]) s.detection_parameters_rt)]
          heap := ⟨ptBlocks rt (rt.pick s.heap.allocs s.heap.live :: s.heap.live)
              (s.heap.allocs + 1) (zed.retrieveBodies (s.calls ++
                [DeviceEvent.grab ERROR_CODE.SUCCESS]) s.detection_parameters_rt).body_list ++
            (rt.pick s.heap.allocs s.heap.live, Block.bodies
              (newCells rt (rt.pick s.heap.allocs s.heap.live :: s.heap.live)
                (s.heap.allocs + 1) (zed.retrieveBodies (s.calls ++
                  [DeviceEvent.grab ERROR_CODE.SUCCESS])
                  s.detection_parameters_rt).body_list)) :: s.heap.blocks,
            s.heap.allocs + 1 + (zed.retrieveBodies (s.calls ++
              [DeviceEvent.grab ERROR_CODE.SUCCESS])
              s.detection_parameters_rt).body_list.length⟩ }
        hpl (fun a ha => by simp [keys] at ha) rfl
      exact ⟨_, _, _, hpoll, ⟨_, (List.append_assoc _ [_] _).symm⟩, hfree, rfl,
        fun h => absurd h hp0⟩
  · exact ⟨_, _, _, poll_fail rt zed s hgrab, ⟨[], rfl⟩, free_null _, rfl, fun _ => rfl⟩

/-- C4, evaluated: a poll that allocates three arrays, then the release. -/
theorem poll_then_free_restores_witness :
    Fresh bumpRuntime ∧
    ∃ bl s1 s2, poll_body_keypoints bumpRuntime (steadyCamera twoBodies) emptyState =
        some (bl, s1) ∧
      (∃ news, s1.heap.blocks = news ++ emptyState.heap.blocks) ∧
      free_body_list bl s1 = some s2 ∧
      s2.heap.blocks = emptyState.heap.blocks ∧
      (bl.bodies = nullptr → s2 = s1) :=
  ⟨bumpRuntime_fresh,
    poll_then_free_restores bumpRuntime bumpRuntime_fresh (steadyCamera twoBodies) emptyState⟩

/-- C10 as stated fails: a new result with zero bodies comes back with a
non-null `bodies` pointer and one live allocation, a poll without a new frame
with the null pointer and none. -/
theorem zero_bodies_not_same_as_no_new_frame :
    (poll_body_keypoints bumpRuntime (steadyCamera nobody) emptyState).map Prod.fst =
      some ⟨0, 1⟩ ∧
    (poll_body_keypoints bumpRuntime (steadyCamera staleBodies) emptyState).map Prod.fst =
      some ⟨0, nullptr⟩ ∧
    (poll_body_keypoints bumpRuntime (steadyCamera nobody) emptyState).map Prod.fst ≠
      (poll_body_keypoints bumpRuntime (steadyCamera staleBodies) emptyState).map Prod.fst ∧
    (poll_body_keypoints bumpRuntime (steadyCamera nobody) emptyState).map
      (fun r => r.2.heap.blocks) = some [(1, Block.bodies [])] ∧
    (poll_body_keypoints bumpRuntime (steadyCamera staleBodies) emptyState).map
      (fun r => r.2.heap.blocks) = some [] := by
  decide

/-- C10, amended: a new result that tracks zero bodies and a poll without a new
frame (grab failure, or a result not marked new) both come back with
`num_bodies = 0`, but not as the same snapshot: the former holds a non-null
pointer to a zero-length `Body` array allocated by the poll, the latter the null
pointer with nothing allocated. -/
theorem poll_zero_bodies_vs_no_new_frame (rt : Runtime) (hrt : Fresh rt) (zed : Camera)
    (s : State) (bodies : Bodies) (hgrab : zed.grab s.calls = ERROR_CODE.SUCCESS)
    (hret : zed.retrieveBodies (s.calls ++ [DeviceEvent.grab ERROR_CODE.SUCCESS])
      s.detection_parameters_rt = bodies)
    (hnew : bodies.is_new = true) (hzero : bodies.body_list = []) :
    ∃ bl s1, poll_body_keypoints rt zed s = some (bl, s1) ∧
      bl.num_bodies = 0 ∧ bl.bodies ≠ nullptr ∧ bl.bodies ∉ s.heap.live ∧
      s1.heap.blocks = (bl.bodies, Block.bodies []) :: s.heap.blocks ∧
      ∀ (rt2 : Runtime) (zed2 : Camera) (s2 : State),
        (zed2.grab s2.calls ≠ ERROR_CODE.SUCCESS ∨
          (zed2.grab s2.calls = ERROR_CODE.SUCCESS ∧
            (zed2.retrieveBodies (s2.calls ++ [DeviceEvent.grab ERROR_CODE.SUCCESS])
              s2.detection_parameters_rt).is_new = false)) →
        ∃ bl2 s3, poll_body_keypoints rt2 zed2 s2 = some (bl2, s3) ∧
          bl2.num_bodies = bl.num_bodies ∧ bl2.bodies = nullptr ∧ s3.heap = s2.heap ∧
          bl2 ≠ bl := by
  obtain ⟨hp0, hpl⟩ := hrt s.heap.allocs s.heap.live
  refine ⟨_, _, poll_new hrt zed s bodies hgrab hret hnew, by simp [hzero], hp0, hpl,
    by simp [hzero, ptBlocks, newCells], ?_⟩
  intro rt2 zed2 s2 h2
  have hne : (⟨0, nullptr⟩ : BodyList) ≠
      ⟨bodies.body_list.length, rt.pick s.heap.allocs s.heap.live⟩ := by
    intro h
    exact hp0 (congrArg BodyList.bodies h).symm
  rcases h2 with h2 | ⟨h2, h3⟩
  · exact ⟨_, _, poll_fail rt2 zed2 s2 h2, by simp [hzero], rfl, rfl, hne⟩
  · exact ⟨_, _, poll_stale rt2 zed2 s2 _ h2 rfl h3, by simp [hzero], rfl, rfl, hne⟩

/-- C10 amended, evaluated on a new result that tracks nobody. -/
theorem poll_zero_bodies_vs_no_new_frame_witness :
    Fresh bumpRuntime ∧
    (steadyCamera nobody).grab emptyState.calls = ERROR_CODE.SUCCESS ∧
    nobody.is_new = true ∧ nobody.body_list = [] ∧
    ∃ bl s1, poll_body_keypoints bumpRuntime (steadyCamera nobody) emptyState = some (bl, s1) ∧
      bl.num_bodies = 0 ∧ bl.bodies ≠ nullptr ∧ bl.bodies ∉ emptyState.heap.live ∧
      s1.heap.blocks = (bl.bodies, Block.bodies []) :: emptyState.heap.blocks ∧
      ∀ (rt2 : Runtime) (zed2 : Camera) (s2 : State),
        (zed2.grab s2.calls ≠ ERROR_CODE.SUCCESS ∨
          (zed2.grab s2.calls = ERROR_CODE.SUCCESS ∧
            (zed2.retrieveBodies (s2.calls ++ [DeviceEvent.grab ERROR_CODE.SUCCESS])
              s2.detection_parameters_rt).is_new = false)) →
        ∃ bl2 s3, poll_body_keypoints rt2 zed2 s2 = some (bl2, s3) ∧
          bl2.num_bodies = bl.num_bodies ∧ bl2.bodies = nullptr ∧ s3.heap = s2.heap ∧
          bl2 ≠ bl :=
  ⟨bumpRuntime_fresh, rfl, rfl, rfl,
    poll_zero_bodies_vs_no_new_frame bumpRuntime bumpRuntime_fresh (steadyCamera nobody)
      emptyState nobody rfl rfl rfl rfl⟩

/-! ## Snapshots in a larger free store -/

theorem map_range_eq_map {α β : Type} (l : List α) (F : Nat → β) (G : α → β)
    (h : ∀ (i : Nat) (hi : i < l.length), F i = G l[i]) :
    (List.range l.length).map F = l.map G := by
  apply List.ext_getElem (by simp)
  intro i h1 h2
  simp only [List.getElem_map, List.getElem_range]
  exact h i (by simpa using h2)

theorem poll_snap {rt : Runtime} (hrt : Fresh rt) (zed : Camera) (s : State) :
    ∃ bl s1 news data, poll_body_keypoints rt zed s = some (bl, s1) ∧
      s1.heap.blocks = news ++ s.heap.blocks ∧ Snap rt bl news s.heap.blocks data := by
  by_cases hgrab : zed.grab s.calls = ERROR_CODE.SUCCESS
  · cases hnew : (zed.retrieveBodies (s.calls ++ [DeviceEvent.grab ERROR_CODE.SUCCESS])
        s.detection_parameters_rt).is_new with
    | false =>
      exact ⟨_, _, [], [], poll_stale rt zed s _ hgrab rfl hnew, rfl, Or.inl ⟨rfl, rfl, rfl⟩⟩
    | true =>
      obtain ⟨hp0, hpl⟩ := hrt s.heap.allocs s.heap.live
      refine ⟨_, _, _, (zed.retrieveBodies (s.calls ++ [DeviceEvent.grab ERROR_CODE.SUCCESS])
        s.detection_parameters_rt).body_list, poll_new hrt zed s _ hgrab rfl hnew, ?_,
        Or.inr ⟨s.heap.allocs + 1, hp0, hpl, rfl, rfl⟩⟩
      exact (List.append_assoc _ [_] _).symm
  · exact ⟨_, _, [], [], poll_fail rt zed s hgrab, rfl, Or.inl ⟨rfl, rfl, rfl⟩⟩

theorem snap_keys {rt : Runtime} (hrt : Fresh rt) {bl : BodyList}
    {news old : List (Addr × Block)} {data : List BodyData} (h : Snap rt bl news old data) :
    ∀ a ∈ keys news, a ≠ nullptr ∧ a ∉ keys old := by
  intro a ha
  rcases h with ⟨_, hn, _⟩ | ⟨n, h0, hold, _, hn⟩
  · rw [hn] at ha
    simp [keys] at ha
  · rw [hn, keys_append, List.mem_append] at ha
    rcases ha with ha | ha
    · obtain ⟨h1, h2⟩ := ptBlocks_fresh hrt _ _ _ a ha
      exact ⟨h1, fun h => h2 (List.mem_cons_of_mem _ h)⟩
    · simp only [keys, List.map_cons, List.map_nil, List.mem_singleton] at ha
      rw [ha]
      exact ⟨h0, hold⟩

theorem snap_view {rt : Runtime} (hrt : Fresh rt) {bl : BodyList}
    {news old : List (Addr × Block)} {data : List BodyData} (h : Snap rt bl news old data)
    (front back : List (Addr × Block)) (m : Nat) (hfront : ∀ a ∈ keys front, a ∉ keys news) :
    bl.view ⟨front ++ (news ++ back), m⟩ = viewOf data := by
  rcases h with ⟨hbl, _, hd⟩ | ⟨n, h0, hold, hnb, hn⟩
  · rw [hbl, hd]
    rfl
  · have ha0 : bl.bodies ∉ keys (front ++ ptBlocks rt (bl.bodies :: keys old) n data) := by
      rw [keys_append, List.mem_append, not_or]
      refine ⟨fun hm => hfront _ hm ?_, fun hm => ?_⟩
      · rw [hn, keys_append]
        simp [keys]
      · exact (ptBlocks_fresh hrt _ _ _ _ hm).2 (List.mem_cons_self _ _)
    have hshape : front ++ (news ++ back) =
        (front ++ ptBlocks rt (bl.bodies :: keys old) n data) ++
          (bl.bodies, Block.bodies (newCells rt (bl.bodies :: keys old) n data)) :: back := by
      rw [hn]
      simp
    unfold BodyList.view viewOf
    rw [hnb]
    apply map_range_eq_map
    intro i hi
    obtain ⟨q, h1, h2, h3⟩ := newCells_lookup hrt data (bl.bodies :: keys old) n i hi
    have hq0 := (ptBlocks_fresh hrt _ _ _ q h2).1
    have hqf : q ∉ keys front := by
      intro hm
      apply hfront q hm
      rw [hn, keys_append, List.mem_append]
      exact Or.inl h2
    have hfind : Heap.find ⟨front ++ (news ++ back), m⟩ q =
        some (Block.points (data[i].keypoint.map toPoint)) := by
      simp only [Heap.find, hq0, if_false]
      rw [findBlock_append_of_not_mem hqf, hn, List.append_assoc, h3]
    have hpts : (List.range data[i].keypoint.length).map
        (Heap.readPoint ⟨front ++ (news ++ back), m⟩ q) =
        data[i].keypoint.map fun k => some (toPoint k) := by
      apply map_range_eq_map
      intro j hj
      simp [Heap.readPoint, hfind, hj]
    rw [hshape, readBody_mid _ _ _ _ h0 ha0, h1, ← hshape]
    simp only [Option.map_some']
    rw [hpts]

theorem mem_arrays {bl : BodyList} {h : Heap} {p : Addr} (hp : p ∈ bl.arrays h) :
    p ≠ nullptr ∧ (p = bl.bodies ∨
      ∃ i b, i < bl.num_bodies ∧ h.readBody bl.bodies i = some b ∧ b.points = p) := by
  simp only [BodyList.arrays, List.mem_filter, List.mem_cons, List.mem_filterMap,
    List.mem_range, Option.map_eq_some', bne_iff_ne, ne_eq] at hp
  refine ⟨hp.2, ?_⟩
  rcases hp.1 with h1 | ⟨i, hi, b, hb, hbp⟩
  · exact Or.inl h1
  · exact Or.inr ⟨i, b, hi, hb, hbp⟩

theorem arrays_of_read {bl : BodyList} {h : Heap} {i : Nat} {b : Body}
    (hi : i < bl.num_bodies) (hb : h.readBody bl.bodies i = some b)
    (hp : b.points ≠ nullptr) : b.points ∈ bl.arrays h := by
  simp only [BodyList.arrays, List.mem_filter, List.mem_cons, List.mem_filterMap,
    List.mem_range, Option.map_eq_some', bne_iff_ne, ne_eq]
  exact ⟨Or.inr ⟨i, hi, b, hb, rfl⟩, hp⟩

theorem snap_arrays {rt : Runtime} (hrt : Fresh rt) {bl : BodyList}
    {news old : List (Addr × Block)} {data : List BodyData} (h : Snap rt bl news old data)
    (front back : List (Addr × Block)) (m : Nat) (hfront : ∀ a ∈ keys front, a ∉ keys news) :
    ∀ p ∈ bl.arrays ⟨front ++ (news ++ back), m⟩, p ∈ keys news := by
  intro p hp
  obtain ⟨hp0, hcases⟩ := mem_arrays hp
  rcases h with ⟨hbl, _, _⟩ | ⟨n, h0, hold, hnb, hn⟩
  · rw [hbl] at hcases
    rcases hcases with h1 | ⟨i, b, hi, _, _⟩
    · exact absurd h1 hp0
    · simp at hi
  · have hmem : bl.bodies ∈ keys news := by
      rw [hn, keys_append]
      simp [keys]
    rcases hcases with h1 | ⟨i, b, hi, hb, hbp⟩
    · rw [h1]
      exact hmem
    · have ha0 : bl.bodies ∉ keys (front ++ ptBlocks rt (bl.bodies :: keys old) n data) := by
        rw [keys_append, List.mem_append, not_or]
        exact ⟨fun hm => hfront _ hm hmem,
          fun hm => (ptBlocks_fresh hrt _ _ _ _ hm).2 (List.mem_cons_self _ _)⟩
      have hshape : front ++ (news ++ back) =
          (front ++ ptBlocks rt (bl.bodies :: keys old) n data) ++
            (bl.bodies, Block.bodies (newCells rt (bl.bodies :: keys old) n data)) :: back := by
        rw [hn]
        simp
      rw [hnb] at hi
      obtain ⟨q, h1, h2, _⟩ := newCells_lookup hrt data (bl.bodies :: keys old) n i hi
      rw [hshape, readBody_mid _ _ _ _ h0 ha0, h1] at hb
      have hq : q = p := by
        rw [← hbp, ← Option.some.inj hb]
      rw [← hq, hn, keys_append, List.mem_append]
      exact Or.inl h2

theorem snap_free {rt : Runtime} (hrt : Fresh rt) {bl : BodyList}
    {news old : List (Addr × Block)} {data : List BodyData} (h : Snap rt bl news old data)
    (front : List (Addr × Block)) (m : Nat) (s : State)
    (hfront : ∀ a ∈ keys front, a ∉ keys news)
    (hs : s.heap = ⟨front ++ (news ++ old), m⟩) :
    free_body_list bl s = some { s with heap := ⟨front ++ old, m⟩ } := by
  rcases h with ⟨hbl, hn, _⟩ | ⟨n, h0, hold, hnb, hn⟩
  · rw [hbl, free_null]
    rw [hn] at hs
    simp only [List.nil_append] at hs
    rw [← hs]
  · have hbl : bl = ⟨data.length, bl.bodies⟩ := by
      rw [← hnb]
    rw [hbl]
    apply free_snapshot hrt h0 front old data n m s hold
    · intro a ha
      have hnot := hfront a ha
      rw [hn, keys_append, List.mem_append, not_or] at hnot
      refine ⟨hnot.1, fun hab => hnot.2 ?_⟩
      simp [keys, hab]
    · rw [hs, hn]
      simp

theorem modifyPoint_some {h h1 : Heap} {p : Addr} {j : Nat} {f : Point3D → Point3D}
    (hm : h.modifyPoint p j f = some h1) :
    p ≠ nullptr ∧ ∃ blk, h1 = ⟨storeBlock p blk h.blocks, h.allocs⟩ := by
  unfold Heap.modifyPoint at hm
  have hp : p ≠ nullptr := by
    intro hp
    simp [Heap.find, hp] at hm
  refine ⟨hp, ?_⟩
  split at hm
  · split at hm
    · exact ⟨_, (Option.some.inj hm).symm⟩
    · exact absurd hm (by simp)
  · exact absurd hm (by simp)

/-- C8: of two successive polls, the second succeeds with a fully readable
snapshot whose arrays are none of the arrays of the first snapshot and none of
the blocks live before it; a store into any point of the first snapshot, the
release of the first snapshot (which succeeds), and a later poll each leave
`num_bodies`, every `num_points` and every point of the second snapshot as they
were. -/
theorem consecutive_snapshots_independent (rt : Runtime) (hrt : Fresh rt) (zed : Camera)
    (s0 : State) :
    ∃ bl1 s1 bl2 s2 data, poll_body_keypoints rt zed s0 = some (bl1, s1) ∧
      poll_body_keypoints rt zed s1 = some (bl2, s2) ∧
      bl2.view s2.heap = viewOf data ∧
      (∀ p ∈ bl2.arrays s2.heap, p ∉ bl1.arrays s2.heap ∧ p ∉ s1.heap.live) ∧
      (∀ (i j : Nat) (f : Point3D → Point3D) (b : Body) (h : Heap), i < bl1.num_bodies →
        s2.heap.readBody bl1.bodies i = some b → s2.heap.modifyPoint b.points j f = some h →
        bl2.view h = bl2.view s2.heap) ∧
      (∃ s3, free_body_list bl1 s2 = some s3 ∧ bl2.view s3.heap = bl2.view s2.heap) ∧
      (∃ bl3 s3, poll_body_keypoints rt zed s2 = some (bl3, s3) ∧
        bl2.view s3.heap = bl2.view s2.heap) := by
  obtain ⟨bl1, s1, news1, data1, hp1, hb1, snap1⟩ := poll_snap hrt zed s0
  obtain ⟨bl2, s2, news2, data2, hp2, hb2, snap2⟩ := poll_snap hrt zed s1
  obtain ⟨bl3, s3, news3, data3, hp3, hb3, snap3⟩ := poll_snap hrt zed s2
  have k2 := snap_keys hrt snap2
  have k3 := snap_keys hrt snap3
  have d21 : ∀ a ∈ keys news2, a ∉ keys news1 := by
    intro a ha hm
    apply (k2 a ha).2
    rw [hb1, keys_append]
    exact List.mem_append_left _ hm
  have d32 : ∀ a ∈ keys news3, a ∉ keys news2 := by
    intro a ha hm
    apply (k3 a ha).2
    rw [hb2, keys_append]
    exact List.mem_append_left _ hm
  have hnil : ∀ a ∈ keys ([] : List (Addr × Block)), a ∉ keys news2 := by
    intro a ha
    simp [keys] at ha
  have e2 : s2.heap = ⟨[] ++ (news2 ++ s1.heap.blocks), s2.heap.allocs⟩ := by
    rw [List.nil_append, ← hb2]
  have e21 : s2.heap = ⟨news2 ++ (news1 ++ s0.heap.blocks), s2.heap.allocs⟩ := by
    rw [← hb1, ← hb2]
  have v2 : bl2.view s2.heap = viewOf data2 := by
    rw [e2]
    exact snap_view hrt snap2 [] _ _ hnil
  refine ⟨bl1, s1, bl2, s2, data2, hp1, hp2, v2, ?_, ?_, ?_, ?_⟩
  · intro p hp
    have hpn : p ∈ keys news2 := by
      rw [e2] at hp
      exact snap_arrays hrt snap2 [] _ _ hnil p hp
    refine ⟨fun hq => ?_, fun hl => (k2 p hpn).2 hl⟩
    rw [e21] at hq
    exact d21 p hpn (snap_arrays hrt snap1 news2 _ _ d21 p hq)
  · intro i j f b h hi hb hm
    obtain ⟨hp0, blk, hh⟩ := modifyPoint_some hm
    have hmem := arrays_of_read hi hb hp0
    rw [e21] at hmem
    have hin1 := snap_arrays hrt snap1 news2 _ _ d21 _ hmem
    have hnot2 : b.points ∉ keys news2 := fun h2 => d21 _ h2 hin1
    rw [hh, hb2, storeBlock_append_of_not_mem hnot2, v2]
    exact snap_view hrt snap2 [] _ _ hnil
  · refine ⟨_, snap_free hrt snap1 news2 s2.heap.allocs s2 d21 e21, ?_⟩
    rw [v2]
    exact snap_view hrt snap2 [] _ _ hnil
  · refine ⟨bl3, s3, hp3, ?_⟩
    have e3 : s3.heap = ⟨news3 ++ (news2 ++ s1.heap.blocks), s3.heap.allocs⟩ := by
      rw [← hb2, ← hb3]
    rw [v2, e3]
    exact snap_view hrt snap2 news3 _ _ d32

/-- C8, evaluated: two polls that each copy two bodies. -/
theorem consecutive_snapshots_independent_witness :
    Fresh bumpRuntime ∧
    ∃ bl1 s1 bl2 s2 data,
      poll_body_keypoints bumpRuntime (steadyCamera twoBodies) emptyState = some (bl1, s1) ∧
      poll_body_keypoints bumpRuntime (steadyCamera twoBodies) s1 = some (bl2, s2) ∧
      bl2.view s2.heap = viewOf data ∧
      (∀ p ∈ bl2.arrays s2.heap, p ∉ bl1.arrays s2.heap ∧ p ∉ s1.heap.live) ∧
      (∀ (i j : Nat) (f : Point3D → Point3D) (b : Body) (h : Heap), i < bl1.num_bodies →
        s2.heap.readBody bl1.bodies i = some b → s2.heap.modifyPoint b.points j f = some h →
        bl2.view h = bl2.view s2.heap) ∧
      (∃ s3, free_body_list bl1 s2 = some s3 ∧ bl2.view s3.heap = bl2.view s2.heap) ∧
      (∃ bl3 s3, poll_body_keypoints bumpRuntime (steadyCamera twoBodies) s2 = some (bl3, s3) ∧
        bl2.view s3.heap = bl2.view s2.heap) :=
  ⟨bumpRuntime_fresh,
    consecutive_snapshots_independent bumpRuntime bumpRuntime_fresh (steadyCamera twoBodies)
      emptyState⟩

/-! ## The session state machine against the adapter -/

theorem retrievalsPermitted_append (t1 t2 : List DeviceEvent) :
    ∀ σ : Session, retrievalsPermitted σ (t1 ++ t2) =
      (retrievalsPermitted σ t1 && retrievalsPermitted (t1.foldl Session.next σ) t2) := by
  induction t1 with
  | nil => intro σ; simp [retrievalsPermitted]
  | cons e t1 ih => intro σ; simp [retrievalsPermitted, ih, Bool.and_assoc]

theorem poll_calls {rt : Runtime} {zed : Camera} {s s1 : State} {bl : BodyList}
    (h : poll_body_keypoints rt zed s = some (bl, s1)) :
    s1.calls = s.calls ++ [DeviceEvent.grab (zed.grab s.calls)] ∨
    ∃ p b, s1.calls = s.calls ++ [DeviceEvent.grab (zed.grab s.calls),
      DeviceEvent.retrieveBodies p b] := by
  unfold poll_body_keypoints at h
  simp only at h
  split at h
  · split at h
    · split at h
      · exact absurd h (by simp)
      · right
        simp only [Option.some.injEq, Prod.mk.injEq] at h
        refine ⟨s.detection_parameters_rt, zed.retrieveBodies
          (s.calls ++ [DeviceEvent.grab (zed.grab s.calls)]) s.detection_parameters_rt, ?_⟩
        rw [← h.2]
        simp
    · right
      simp only [Option.some.injEq, Prod.mk.injEq] at h
      refine ⟨s.detection_parameters_rt, zed.retrieveBodies
        (s.calls ++ [DeviceEvent.grab (zed.grab s.calls)]) s.detection_parameters_rt, ?_⟩
      rw [← h.2]
      simp
  · left
    simp only [Option.some.injEq, Prod.mk.injEq] at h
    rw [← h.2]

theorem poll_keeps_tracking {rt : Runtime} {zed : Camera} {s s1 : State} {bl : BodyList}
    (h : poll_body_keypoints rt zed s = some (bl, s1))
    (hperm : retrievalsPermitted Session.Uninitialized s.calls = true)
    (hsess : sessionAfter s.calls = Session.TrackingEnabled) :
    retrievalsPermitted Session.Uninitialized s1.calls = true ∧
      sessionAfter s1.calls = Session.TrackingEnabled := by
  unfold sessionAfter at hsess ⊢
  rcases poll_calls h with hc | ⟨p, b, hc⟩
  · rw [hc, retrievalsPermitted_append, List.foldl_append, hperm, hsess]
    simp [retrievalsPermitted, DeviceEvent.isRetrieval, Session.next]
  · rw [hc, retrievalsPermitted_append, List.foldl_append, hperm, hsess]
    simp [retrievalsPermitted, DeviceEvent.isRetrieval, Session.next]

theorem init_zed_session (zed : Camera) (s : State) (hs : s.calls = []) :
    (∀ s1, init_zed zed s = Outcome.returned s1 →
      retrievalsPermitted Session.Uninitialized s1.calls = true ∧
        sessionAfter s1.calls = Session.TrackingEnabled) ∧
    (∀ n s1, init_zed zed s = Outcome.exited n s1 →
      retrievalsPermitted Session.Uninitialized s1.calls = true) := by
  unfold init_zed
  simp only [hs, List.nil_append, ne_eq, if_true, ite_not]
  constructor
  · intro s1 h
    split at h
    · rename_i hopen
      split at h
      · rename_i htrack
        rw [hopen] at htrack
        simp only [List.cons_append, List.nil_append] at htrack
        simp only [Outcome.returned.injEq] at h
        rw [← h]
        simp [retrievalsPermitted, DeviceEvent.isRetrieval, sessionAfter, Session.next, hopen,
          htrack]
      · exact Outcome.noConfusion h
    · exact Outcome.noConfusion h
  · intro n s1 h
    split at h
    · split at h
      · exact Outcome.noConfusion h
      · simp only [Outcome.exited.injEq] at h
        rw [← h.2]
        simp [retrievalsPermitted, DeviceEvent.isRetrieval]
    · simp only [Outcome.exited.injEq] at h
      rw [← h.2]
      simp [retrievalsPermitted, DeviceEvent.isRetrieval]

theorem polls_then_close_permitted (rt : Runtime) (zed : Camera) :
    ∀ (cs : List ApiCall) (s : State), pollsThenClose cs = true →
      retrievalsPermitted Session.Uninitialized s.calls = true →
      sessionAfter s.calls = Session.TrackingEnabled →
      retrievalsPermitted Session.Uninitialized (runApi rt zed cs s).calls = true := by
  intro cs
  induction cs with
  | nil => intro s _ hperm _; simpa [runApi] using hperm
  | cons c rest ih =>
    intro s hcs hperm hsess
    cases c with
    | init_zed => simp [pollsThenClose] at hcs
    | poll_body_keypoints =>
      simp only [pollsThenClose] at hcs
      simp only [runApi]
      split
      · rename_i bl s1 hpoll
        obtain ⟨h1, h2⟩ := poll_keeps_tracking hpoll hperm hsess
        exact ih s1 hcs h1 h2
      · exact hperm
    | close_zed =>
      cases rest with
      | nil =>
        simp only [runApi, close_zed]
        rw [retrievalsPermitted_append, hperm]
        simp [retrievalsPermitted, DeviceEvent.isRetrieval]
      | cons c2 rest2 => simp [pollsThenClose] at hcs

/-- C9 as stated fails: on a camera that follows the state machine, a poll before
`init_zed` issues a grab in `Uninitialized`, and a poll after `close_zed` issues
one in `Closed`. -/
theorem poll_grabs_outside_tracking :
    (runApi bumpRuntime (strictCamera twoBodies) [ApiCall.poll_body_keypoints]
      emptyState).calls = [DeviceEvent.grab (ERROR_CODE.FAILURE 4)] ∧
    retrievalsPermitted Session.Uninitialized
      (runApi bumpRuntime (strictCamera twoBodies) [ApiCall.poll_body_keypoints]
        emptyState).calls = false ∧
    (runApi bumpRuntime (strictCamera twoBodies)
      [ApiCall.init_zed, ApiCall.close_zed, ApiCall.poll_body_keypoints] emptyState).calls =
      [DeviceEvent.open_ openParameters ERROR_CODE.SUCCESS, DeviceEvent.enablePositionalTracking,
        DeviceEvent.enableBodyTracking trackingParameters ERROR_CODE.SUCCESS, DeviceEvent.close,
        DeviceEvent.grab (ERROR_CODE.FAILURE 4)] ∧
    sessionAfter [DeviceEvent.open_ openParameters ERROR_CODE.SUCCESS,
      DeviceEvent.enablePositionalTracking,
      DeviceEvent.enableBodyTracking trackingParameters ERROR_CODE.SUCCESS,
      DeviceEvent.close] = Session.Closed ∧
    retrievalsPermitted Session.Uninitialized
      (runApi bumpRuntime (strictCamera twoBodies)
        [ApiCall.init_zed, ApiCall.close_zed, ApiCall.poll_body_keypoints]
        emptyState).calls = false := by
  decide

/-- C9, amended: the adapter has no session guard, so a poll issues a device grab
in every state; keeping retrievals inside `TrackingEnabled` is left to the
caller: when the caller calls `init_zed` first, then polls, and `close_zed` last
if at all, every grab and retrieval is made in `TrackingEnabled`, which a
returning `init_zed` reaches and `close_zed` leaves for `Closed`. -/
theorem poll_unguarded_protocol_guards (rt : Runtime) (hrt : Fresh rt) (zed : Camera) :
    (∀ s : State, ∃ bl s1 tail, poll_body_keypoints rt zed s = some (bl, s1) ∧
      s1.calls = s.calls ++ DeviceEvent.grab (zed.grab s.calls) :: tail) ∧
    (∀ (cs : List ApiCall) (s : State), followsProtocol cs = true → s.calls = [] →
      retrievalsPermitted Session.Uninitialized (runApi rt zed cs s).calls = true) ∧
    (∀ s s1 : State, s.calls = [] → init_zed zed s = Outcome.returned s1 →
      sessionAfter s1.calls = Session.TrackingEnabled ∧
        sessionAfter (close_zed s1).calls = Session.Closed) := by
  refine ⟨?_, ?_, ?_⟩
  · intro s
    obtain ⟨bl, s1, _, _, hpoll, _, _⟩ := poll_snap hrt zed s
    rcases poll_calls hpoll with hc | ⟨p, b, hc⟩
    · exact ⟨bl, s1, [], hpoll, hc⟩
    · exact ⟨bl, s1, [DeviceEvent.retrieveBodies p b], hpoll, hc⟩
  · intro cs s hcs hs
    cases cs with
    | nil => simp [followsProtocol] at hcs
    | cons c rest =>
      cases c with
      | init_zed =>
        simp only [followsProtocol] at hcs
        obtain ⟨hret, hexit⟩ := init_zed_session zed s hs
        simp only [runApi]
        split
        · rename_i s1 hinit
          obtain ⟨h1, h2⟩ := hret s1 hinit
          exact polls_then_close_permitted rt zed rest s1 hcs h1 h2
        · rename_i n s1 hinit
          exact hexit n s1 hinit
      | poll_body_keypoints => simp [followsProtocol] at hcs
      | close_zed => simp [followsProtocol] at hcs
  · intro s s1 hs hinit
    obtain ⟨_, h2⟩ := (init_zed_session zed s hs).1 s1 hinit
    refine ⟨h2, ?_⟩
    unfold sessionAfter at h2 ⊢
    simp only [close_zed, List.foldl_append, h2]
    rfl

/-- C9 amended, evaluated on a camera that follows the state machine. -/
theorem poll_unguarded_protocol_guards_witness :
    Fresh bumpRuntime ∧
    (∀ s : State, ∃ bl s1 tail,
      poll_body_keypoints bumpRuntime (strictCamera twoBodies) s = some (bl, s1) ∧
      s1.calls = s.calls ++ DeviceEvent.grab ((strictCamera twoBodies).grab s.calls) :: tail) ∧
    (∀ (cs : List ApiCall) (s : State), followsProtocol cs = true → s.calls = [] →
      retrievalsPermitted Session.Uninitialized
        (runApi bumpRuntime (strictCamera twoBodies) cs s).calls = true) ∧
    (∀ s s1 : State, s.calls = [] → init_zed (strictCamera twoBodies) s = Outcome.returned s1 →
      sessionAfter s1.calls = Session.TrackingEnabled ∧
        sessionAfter (close_zed s1).calls = Session.Closed) :=
  ⟨bumpRuntime_fresh,
    poll_unguarded_protocol_guards bumpRuntime bumpRuntime_fresh (strictCamera twoBodies)⟩

/-! ## The keypoint count after `init_zed` -/

theorem configuredFormat_append (t1 t2 : List DeviceEvent) :
    configuredFormat (t1 ++ t2) = t2.foldl formatAfter (configuredFormat t1) := by
  simp [configuredFormat, List.foldl_append]

theorem init_zed_configures (zed : Camera) (s0 s1 : State)
    (h : init_zed zed s0 = Outcome.returned s1) :
    configuredFormat s1.calls = some BODY_FORMAT.BODY_38 ∧
      s1.detection_parameters.body_format = BODY_FORMAT.BODY_38 := by
  unfold init_zed at h
  simp only [ne_eq, if_true, ite_not] at h
  split at h
  · split at h
    · rename_i htrack
      simp only [Outcome.returned.injEq] at h
      rw [← h]
      refine ⟨?_, rfl⟩
      simp only [configuredFormat_append, htrack]
      rfl
    · exact Outcome.noConfusion h
  · exact Outcome.noConfusion h

theorem poll_keeps_format {rt : Runtime} {zed : Camera} {s s1 : State} {bl : BodyList}
    (h : poll_body_keypoints rt zed s = some (bl, s1)) :
    configuredFormat s1.calls = configuredFormat s.calls := by
  rcases poll_calls h with hc | ⟨p, b, hc⟩
  · rw [hc, configuredFormat_append]
    rfl
  · rw [hc, configuredFormat_append]
    rfl

theorem free_keeps_calls {bl : BodyList} {s s1 : State}
    (h : free_body_list bl s = some s1) : s1.calls = s.calls := by
  unfold free_body_list at h
  split at h
  · exact absurd h (by simp)
  · split at h
    · exact absurd h (by simp)
    · rw [← Option.some.inj h]

/-- C7: `init_zed`, when it returns, has configured the device with `BODY_38`,
and polls and releases keep that configuration; on a device that delivers the
configured format's 38 keypoints per body, every successful retrieval (grab
succeeds, result new) made under that configuration returns a snapshot in which
every body has `num_points = 38`. -/
theorem poll_num_points_38 (rt : Runtime) (hrt : Fresh rt) (zed : Camera)
    (hdev : HonoursFormat zed) :
    (∀ s0 s1 : State, init_zed zed s0 = Outcome.returned s1 →
      configuredFormat s1.calls = some BODY_FORMAT.BODY_38 ∧
        s1.detection_parameters.body_format = BODY_FORMAT.BODY_38) ∧
    (∀ (s s1 : State) (bl : BodyList), poll_body_keypoints rt zed s = some (bl, s1) →
      configuredFormat s1.calls = configuredFormat s.calls) ∧
    (∀ (s s1 : State) (bl : BodyList), free_body_list bl s = some s1 → s1.calls = s.calls) ∧
    (∀ s : State, configuredFormat s.calls = some BODY_FORMAT.BODY_38 →
      zed.grab s.calls = ERROR_CODE.SUCCESS →
      (zed.retrieveBodies (s.calls ++ [DeviceEvent.grab ERROR_CODE.SUCCESS])
        s.detection_parameters_rt).is_new = true →
      ∃ bl s1, poll_body_keypoints rt zed s = some (bl, s1) ∧
        bl.num_bodies = (zed.retrieveBodies (s.calls ++ [DeviceEvent.grab ERROR_CODE.SUCCESS])
          s.detection_parameters_rt).body_list.length ∧
        ∀ i, i < bl.num_bodies →
          ∃ b, s1.heap.readBody bl.bodies i = some b ∧ b.num_points = 38) := by
  refine ⟨init_zed_configures zed, fun s s1 bl h => poll_keeps_format h,
    fun s s1 bl h => free_keeps_calls h, ?_⟩
  intro s hfmt hgrab hnew
  refine ⟨_, _, poll_new hrt zed s _ hgrab rfl hnew, rfl, ?_⟩
  intro i hi
  obtain ⟨hp0, _⟩ := hrt s.heap.allocs s.heap.live
  obtain ⟨q, h1, _, _⟩ := newCells_lookup hrt
    (zed.retrieveBodies (s.calls ++ [DeviceEvent.grab ERROR_CODE.SUCCESS])
      s.detection_parameters_rt).body_list
    (rt.pick s.heap.allocs s.heap.live :: s.heap.live) (s.heap.allocs + 1) i hi
  have ha0 : rt.pick s.heap.allocs s.heap.live ∉ keys (ptBlocks rt
      (rt.pick s.heap.allocs s.heap.live :: s.heap.live) (s.heap.allocs + 1)
      (zed.retrieveBodies (s.calls ++ [DeviceEvent.grab ERROR_CODE.SUCCESS])
        s.detection_parameters_rt).body_list) :=
    fun h => (ptBlocks_fresh hrt _ _ _ _ h).2 (List.mem_cons_self _ _)
  have hcfg : configuredFormat (s.calls ++ [DeviceEvent.grab ERROR_CODE.SUCCESS]) =
      some BODY_FORMAT.BODY_38 := by
    rw [configuredFormat_append, hfmt]
    rfl
  refine ⟨⟨(zed.retrieveBodies (s.calls ++ [DeviceEvent.grab ERROR_CODE.SUCCESS])
    s.detection_parameters_rt).body_list[i].keypoint.length, q⟩, ?_,
    hdev _ s.detection_parameters_rt hcfg _ (List.getElem_mem hi)⟩
  simp only
  rw [readBody_mid _ _ _ _ hp0 ha0]
  exact h1

theorem steadyCamera_fullBody_honours : HonoursFormat (steadyCamera fullBody) := by
  intro calls p _ cb hcb
  simp only [steadyCamera, fullBody, List.mem_singleton] at hcb
  rw [hcb]
  simp

/-- C7, evaluated: `init_zed` on the empty state, then a poll on a device that
delivers one body in the 38-point layout. -/
theorem poll_num_points_38_witness :
    Fresh bumpRuntime ∧ HonoursFormat (steadyCamera fullBody) ∧
    init_zed (steadyCamera fullBody) emptyState = Outcome.returned readyState ∧
    configuredFormat readyState.calls = some BODY_FORMAT.BODY_38 ∧
    ∃ bl s1, poll_body_keypoints bumpRuntime (steadyCamera fullBody) readyState = some (bl, s1) ∧
      bl.num_bodies = 1 ∧
      ∀ i, i < bl.num_bodies →
        ∃ b, s1.heap.readBody bl.bodies i = some b ∧ b.num_points = 38 :=
  ⟨bumpRuntime_fresh, steadyCamera_fullBody_honours, rfl,
    ((poll_num_points_38 bumpRuntime bumpRuntime_fresh (steadyCamera fullBody)
      steadyCamera_fullBody_honours).1 emptyState readyState rfl).1,
    (poll_num_points_38 bumpRuntime bumpRuntime_fresh (steadyCamera fullBody)
      steadyCamera_fullBody_honours).2.2.2 readyState
      ((poll_num_points_38 bumpRuntime bumpRuntime_fresh (steadyCamera fullBody)
        steadyCamera_fullBody_honours).1 emptyState readyState rfl).1 rfl rfl⟩

end Zed
